import Mathlib

set_option maxHeartbeats 1000000
set_option maxRecDepth 4000

/-!
Shallow embedding of the game core of the qq_bot repository
(`src/Plugins/ChessGames` and `src/Plugins/RussianRoulette`), together with
theorems settling the frozen claims about its specification.

Python dictionaries that are only read/written pointwise are modelled as
functions into `Option`; the matchmaker's nested waiting dictionary, whose
code also tests dictionary emptiness, is modelled as an association list.
Python exceptions are modelled with `Except`.
-/

/-- Pointwise insertion into a map modelled as a function, mirroring
`d[k] = v` on a Python dict. -/
def fmInsert {α : Type} {β : Type} [DecidableEq α] (m : α → Option β) (k : α) (v : β) :
    α → Option β :=
  fun x => if x = k then some v else m x

/-- Pointwise deletion from a map modelled as a function, mirroring
`del d[k]` on a Python dict (the key is known to be present at call sites). -/
def fmErase {α : Type} {β : Type} [DecidableEq α] (m : α → Option β) (k : α) :
    α → Option β :=
  fun x => if x = k then none else m x

/-- Model of Python `str.strip()` on the underlying character list:
whitespace dropped from both ends. -/
def pyStripChars (cs : List Char) : List Char :=
  ((cs.dropWhile Char.isWhitespace).reverse.dropWhile Char.isWhitespace).reverse

/-- Model of Python `int(s)` restricted to what the Gomoku parser feeds it:
optional surrounding whitespace, an optional sign, then a non-empty digit
string; any other shape raises `ValueError`, modelled as `none`. -/
def pyInt? (s : String) : Option Int :=
  let core : List Char → Option Nat := fun cs =>
    if cs ≠ [] ∧ cs.all Char.isDigit then
      some (cs.foldl (fun n c => n * 10 + (c.toNat - 48)) 0)
    else none
  match pyStripChars s.data with
  | '+' :: rest => (core rest).map Int.ofNat
  | '-' :: rest => (core rest).map (fun n => -(n : Int))
  | cs => (core cs).map Int.ofNat

/-- Reading one cell of a list-of-lists board, mirroring `board[r][c]` at
call sites where the indices are known to be in range. -/
def getCell (board : List (List Nat)) (r c : Nat) : Nat :=
  (((board.get? r).getD []).get? c).getD 0

/-- Writing one cell of a list-of-lists board, mirroring `board[r][c] = v`. -/
def setCell (board : List (List Nat)) (r c : Nat) (v : Nat) : List (List Nat) :=
  board.set r (((board.get? r).getD []).set c v)

namespace ChessGames

/-- Mirror of `GameResult` in `games/base_game.py`. -/
inductive GameResult where
  | CONTINUE
  | WIN
  | DRAW
  | INVALID
deriving DecidableEq, Repr

/-- Mirror of `MoveResult` in `games/base_game.py`. -/
structure MoveResult where
  result : GameResult
  winner : Option String
  message : String
  board_changed : Bool
deriving DecidableEq, Repr

/-- Mirror of the `TicTacToe` instance state (`games/tictactoe.py` plus the
fields inherited from `BaseGame`). -/
structure TicTacToe where
  player1_id : String
  player2_id : String
  current_player : String
  moves_count : Nat
  is_finished : Bool
  winner : Option String
  board : List (List Nat)
  player_symbols : List (String × String)
  player_numbers : List (String × Nat)
deriving DecidableEq, Repr

namespace TicTacToe

/-- Mirror of the Python dict literal `\x7bplayer1_id: x, player2_id: y\x7d`:
when both keys coincide only the second binding survives. -/
def dictOfPlayers {β : Type} (p1 p2 : String) (v1 v2 : β) : List (String × β) :=
  if p1 = p2 then [(p2, v2)] else [(p1, v1), (p2, v2)]

/-- Mirror of `TicTacToe.__init__`. -/
def init (player1_id player2_id : String) : TicTacToe :=
  { player1_id := player1_id
    player2_id := player2_id
    current_player := player1_id
    moves_count := 0
    is_finished := false
    winner := none
    board := [[0, 0, 0], [0, 0, 0], [0, 0, 0]]
    player_symbols := dictOfPlayers player1_id player2_id "X" "O"
    player_numbers := dictOfPlayers player1_id player2_id 1 2 }

/-- Lookup in the `player_numbers` dict; at every call site the guard
`is_player_turn` has ensured the key is present, so the default is dead. -/
def playerNumber (g : TicTacToe) (pid : String) : Nat :=
  ((g.player_numbers.lookup pid).getD 0)

/-- Lookup in the `player_symbols` dict. -/
def playerSymbol (g : TicTacToe) (pid : String) : String :=
  ((g.player_symbols.lookup pid).getD "")

/-- Mirror of `BaseGame.is_player_turn`. -/
def is_player_turn (g : TicTacToe) (pid : String) : Bool :=
  g.current_player == pid && !g.is_finished

/-- Mirror of `BaseGame.switch_player`. -/
def switch_player (g : TicTacToe) : TicTacToe :=
  if g.current_player = g.player1_id then
    { g with current_player := g.player2_id }
  else
    { g with current_player := g.player1_id }

/-- Mirror of `BaseGame.finish_game`. -/
def finish_game (g : TicTacToe) (winner : Option String) : TicTacToe :=
  { g with is_finished := true, winner := winner }

/-- Mirror of `TicTacToe._position_to_coords` (only evaluated on 1..9). -/
def position_to_coords (position : Int) : Nat × Nat :=
  let p := (position - 1).toNat
  (p / 3, p % 3)

/-- Mirror of `TicTacToe.is_valid_move`. -/
def is_valid_move (g : TicTacToe) (move : Int) : Bool :=
  if move < 1 || move > 9 then false
  else
    let rc := position_to_coords move
    getCell g.board rc.1 rc.2 == 0

/-- Mirror of `TicTacToe._get_player_by_number`: first entry of the
`player_numbers` dict carrying the requested number, in insertion order. -/
def get_player_by_number (g : TicTacToe) (number : Nat) : Option String :=
  (g.player_numbers.find? (fun p => p.2 == number)).map (·.1)

/-- Mirror of `TicTacToe._check_winner`: rows, then columns, then the two
diagonals. -/
def check_winner (g : TicTacToe) : Option String :=
  let b := g.board
  let cell := fun r c => getCell b r c
  let rowWin := fun (i : Nat) =>
    if cell i 0 ≠ 0 ∧ cell i 0 = cell i 1 ∧ cell i 1 = cell i 2 then
      g.get_player_by_number (cell i 0)
    else none
  let colWin := fun (j : Nat) =>
    if cell 0 j ≠ 0 ∧ cell 0 j = cell 1 j ∧ cell 1 j = cell 2 j then
      g.get_player_by_number (cell 0 j)
    else none
  match rowWin 0 <|> rowWin 1 <|> rowWin 2 <|> colWin 0 <|> colWin 1 <|> colWin 2 with
  | some w => some w
  | none =>
    if cell 0 0 ≠ 0 ∧ cell 0 0 = cell 1 1 ∧ cell 1 1 = cell 2 2 then
      g.get_player_by_number (cell 0 0)
    else if cell 0 2 ≠ 0 ∧ cell 0 2 = cell 1 1 ∧ cell 1 1 = cell 2 0 then
      g.get_player_by_number (cell 0 2)
    else none

/-- Mirror of `TicTacToe._is_board_full`. -/
def is_board_full (g : TicTacToe) : Bool :=
  (List.range 3).all (fun i => (List.range 3).all (fun j => getCell g.board i j != 0))

/-- Mirror of `TicTacToe.make_move`. -/
def make_move (g : TicTacToe) (player_id : String) (move : Int) :
    MoveResult × TicTacToe :=
  if g.is_finished then
    (⟨.INVALID, none, "\n❌ 游戏已结束", true⟩, g)
  else if !(g.is_player_turn player_id) then
    (⟨.INVALID, none, "\n❌ 不是您的回合", true⟩, g)
  else if !(g.is_valid_move move) then
    (⟨.INVALID, none, "\n❌ 无效的移动位置", true⟩, g)
  else
    let rc := position_to_coords move
    let g1 : TicTacToe :=
      { g with
        board := setCell g.board rc.1 rc.2 (g.playerNumber player_id)
        moves_count := g.moves_count + 1 }
    match g1.check_winner with
    | some w =>
      let g2 := g1.finish_game (some w)
      (⟨.WIN, some w, "\n🎉 玩家 " ++ g1.playerSymbol w ++ " 获胜！", true⟩, g2)
    | none =>
      if g1.is_board_full then
        (⟨.DRAW, none, "\n🤝 平局！", true⟩, g1.finish_game none)
      else
        let g2 := g1.switch_player
        (⟨.CONTINUE, none, "\n轮到玩家 " ++ g2.playerSymbol g2.current_player ++ " 下棋", true⟩,
          g2)

/-- Mirror of the dictionary produced by `TicTacToe.to_dict` (fixed keys,
so it is modelled as a structure). -/
structure Dict where
  player1_id : String
  player2_id : String
  current_player : String
  moves_count : Nat
  is_finished : Bool
  winner : Option String
  board_state : List (List Nat)
  game_type : String
  board : List (List Nat)
  player_symbols : List (String × String)
  player_numbers : List (String × Nat)
deriving DecidableEq, Repr

/-- Mirror of `TicTacToe.get_board_state`. -/
def get_board_state (g : TicTacToe) : List (List Nat) :=
  g.board.map (fun row => row)

/-- Mirror of `TicTacToe.to_dict` (base-class keys plus the subclass
update). -/
def to_dict (g : TicTacToe) : Dict :=
  { player1_id := g.player1_id
    player2_id := g.player2_id
    current_player := g.current_player
    moves_count := g.moves_count
    is_finished := g.is_finished
    winner := g.winner
    board_state := g.get_board_state
    game_type := "tictactoe"
    board := g.board
    player_symbols := g.player_symbols
    player_numbers := g.player_numbers }

/-- Mirror of `TicTacToe.from_dict`. -/
def from_dict (data : Dict) : TicTacToe :=
  let g := init data.player1_id data.player2_id
  { g with
    board := data.board
    current_player := data.current_player
    moves_count := data.moves_count
    is_finished := data.is_finished
    winner := data.winner
    player_symbols := data.player_symbols
    player_numbers := data.player_numbers }

end TicTacToe

/-- Python runtime exceptions reachable inside the embedded code. -/
inductive PyErr where
  | indexError
  | keyError
deriving DecidableEq, Repr

/-- Mirror of the `Gomoku` instance state (`games/gomoku.py` plus the fields
inherited from `BaseGame`). -/
structure Gomoku where
  player1_id : String
  player2_id : String
  current_player : String
  moves_count : Nat
  is_finished : Bool
  winner : Option String
  board_size : Nat
  board : List (List Nat)
  player_symbols : List (String × String)
  player_numbers : List (String × Nat)
  player_colors : List (String × String)
  last_move : Option (Nat × Nat)
deriving DecidableEq, Repr

namespace Gomoku

/-- Mirror of `Gomoku.__init__`. -/
def init (player1_id player2_id : String) (board_size : Nat) : Gomoku :=
  { player1_id := player1_id
    player2_id := player2_id
    current_player := player1_id
    moves_count := 0
    is_finished := false
    winner := none
    board_size := board_size
    board := (List.range board_size).map (fun _ => (List.range board_size).map (fun _ => 0))
    player_symbols := TicTacToe.dictOfPlayers player1_id player2_id "●" "○"
    player_numbers := TicTacToe.dictOfPlayers player1_id player2_id 1 2
    player_colors := TicTacToe.dictOfPlayers player1_id player2_id "黑" "白"
    last_move := none }

/-- Lookup in the `player_numbers` dict (key present at every call site
thanks to the turn guard). -/
def playerNumber (g : Gomoku) (pid : String) : Nat :=
  ((g.player_numbers.lookup pid).getD 0)

/-- Lookup in the `player_colors` dict. -/
def playerColor (g : Gomoku) (pid : String) : String :=
  ((g.player_colors.lookup pid).getD "")

/-- Mirror of `BaseGame.is_player_turn`. -/
def is_player_turn (g : Gomoku) (pid : String) : Bool :=
  g.current_player == pid && !g.is_finished

/-- Mirror of `BaseGame.switch_player`. -/
def switch_player (g : Gomoku) : Gomoku :=
  if g.current_player = g.player1_id then
    { g with current_player := g.player2_id }
  else
    { g with current_player := g.player1_id }

/-- Mirror of `BaseGame.finish_game`. -/
def finish_game (g : Gomoku) (winner : Option String) : Gomoku :=
  { g with is_finished := true, winner := winner }

/-- Mirror of `Gomoku._parse_move`.  The length guard runs BEFORE
`upper().strip()`, so a whitespace-only string of length ≥ 2 strips to the
empty string and `move[0]` raises `IndexError`; `int(...)` failures are
caught by the source's `try`/`except ValueError` and modelled as `none`. -/
def parse_move (g : Gomoku) (move : String) : Except PyErr (Option (Int × Int)) :=
  if move.length < 2 then .ok none
  else
    let m := pyStripChars (move.data.map Char.toUpper)
    match m with
    | [] => .error .indexError
    | col_char :: rest =>
      let row_str : String := ⟨rest⟩
      if !col_char.isAlpha || (col_char.toNat : Int) - 65 ≥ (g.board_size : Int) then
        .ok none
      else
        match pyInt? row_str with
        | none => .ok none
        | some row_num =>
          if row_num < 1 || row_num > (g.board_size : Int) then .ok none
          else .ok (some (row_num - 1, (col_char.toNat : Int) - 65))

/-- Mirror of `Gomoku.is_valid_move`. -/
def is_valid_move (g : Gomoku) (move : Int × Int) : Bool :=
  let row := move.1
  let col := move.2
  if row < 0 || row ≥ (g.board_size : Int) || col < 0 || col ≥ (g.board_size : Int) then
    false
  else
    getCell g.board row.toNat col.toNat == 0

/-- Mirror of one of the two `while` loops of `Gomoku._get_winning_line`:
cells collected from `(r, c)` onwards in direction `(dr, dc)` while they
stay on the board and carry `player_num`.  The fuel `g.board_size` is an
upper bound on the number of loop iterations, since the moving coordinate
is strictly monotone inside `[0, board_size)`. -/
def collect (board : List (List Nat)) (size : Nat) (player_num : Nat)
    (dr dc : Int) : Int → Int → Nat → List (Int × Int)
  | _, _, 0 => []
  | r, c, fuel + 1 =>
    if 0 ≤ r ∧ r < (size : Int) ∧ 0 ≤ c ∧ c < (size : Int) ∧
        getCell board r.toNat c.toNat = player_num then
      (r, c) :: collect board size player_num dr dc (r + dr) (c + dc) fuel
    else []

/-- Run of cells through `(row, col)` in direction `(dr, dc)`, ordered from
the most-backward cell to the most-forward one, exactly as the source
builds its `positions` list (`append` forward, `insert(0)` backward). -/
def positionsFor (board : List (List Nat)) (size : Nat) (player_num : Nat)
    (row col dr dc : Int) : List (Int × Int) :=
  (collect board size player_num (-dr) (-dc) (row - dr) (col - dc) size).reverse ++
    (row, col) :: collect board size player_num dr dc (row + dr) (col + dc) size

/-- Scan order of the four directions in `Gomoku._get_winning_line`. -/
def directions : List (Int × Int) := [(0, 1), (1, 0), (1, 1), (1, -1)]

/-- Mirror of `Gomoku._get_winning_line`. -/
def get_winning_line (g : Gomoku) (row col : Nat) : Option (List (Int × Int)) :=
  let player_num := getCell g.board row col
  directions.findSome? (fun d =>
    let positions := positionsFor g.board g.board_size player_num
      (row : Int) (col : Int) d.1 d.2
    if positions.length ≥ 5 then some (positions.take 5) else none)

/-- Mirror of `Gomoku._check_winner`. -/
def check_winner (g : Gomoku) (row col : Nat) : Bool :=
  (g.get_winning_line row col).isSome

/-- Mirror of `Gomoku._is_board_full`. -/
def is_board_full (g : Gomoku) : Bool :=
  (List.range g.board_size).all (fun i =>
    (List.range g.board_size).all (fun j => getCell g.board i j != 0))

/-- Placement step of `Gomoku.make_move` (the three mutation lines
`self.board[row][col] = ...`, `self.moves_count += 1`,
`self.last_move = (row, col)`). -/
def place (g : Gomoku) (player_id : String) (row col : Int) : Gomoku :=
  { g with
    board := setCell g.board row.toNat col.toNat (g.playerNumber player_id)
    moves_count := g.moves_count + 1
    last_move := some (row.toNat, col.toNat) }

/-- Mirror of `Gomoku.make_move`; an uncaught exception from the parser
propagates out as `Except.error`. -/
def make_move (g : Gomoku) (player_id : String) (move : String) :
    Except PyErr (MoveResult × Gomoku) :=
  if g.is_finished then
    .ok (⟨.INVALID, none, "\n❌ 游戏已结束", true⟩, g)
  else if !(g.is_player_turn player_id) then
    .ok (⟨.INVALID, none, "\n❌ 不是您的回合", true⟩, g)
  else
    match g.parse_move move with
    | .error e => .error e
    | .ok none =>
      .ok (⟨.INVALID, none, "\n❌ 无效的位置格式，请使用如 H8 的格式", true⟩, g)
    | .ok (some (row, col)) =>
      if !(g.is_valid_move (row, col)) then
        .ok (⟨.INVALID, none, "\n❌ 该位置已被占用或超出棋盘范围", true⟩, g)
      else
        let g1 := g.place player_id row col
        if g1.check_winner row.toNat col.toNat then
          let g2 := g1.finish_game (some player_id)
          .ok (⟨.WIN, some player_id, "\n🎉 " ++ g1.playerColor player_id ++ "棋获胜！", true⟩, g2)
        else if g1.is_board_full then
          .ok (⟨.DRAW, none, "\n🤝 平局！棋盘已满", true⟩, g1.finish_game none)
        else
          let g2 := g1.switch_player
          .ok (⟨.CONTINUE, none, "\n轮到" ++ g2.playerColor g2.current_player ++ "棋下棋", true⟩, g2)

/-- Mirror of the dictionary produced by `Gomoku.to_dict`. -/
structure Dict where
  player1_id : String
  player2_id : String
  current_player : String
  moves_count : Nat
  is_finished : Bool
  winner : Option String
  board_state : List (List Nat)
  game_type : String
  board_size : Nat
  board : List (List Nat)
  player_symbols : List (String × String)
  player_numbers : List (String × Nat)
  player_colors : List (String × String)
  last_move : Option (Nat × Nat)
deriving DecidableEq, Repr

/-- Mirror of `Gomoku.get_board_state`. -/
def get_board_state (g : Gomoku) : List (List Nat) :=
  g.board.map (fun row => row)

/-- Mirror of `Gomoku.to_dict`. -/
def to_dict (g : Gomoku) : Dict :=
  { player1_id := g.player1_id
    player2_id := g.player2_id
    current_player := g.current_player
    moves_count := g.moves_count
    is_finished := g.is_finished
    winner := g.winner
    board_state := g.get_board_state
    game_type := "gomoku"
    board_size := g.board_size
    board := g.board
    player_symbols := g.player_symbols
    player_numbers := g.player_numbers
    player_colors := g.player_colors
    last_move := g.last_move }

/-- Mirror of `Gomoku.from_dict` (`data.get('board_size', 15)` always finds
the key written by `to_dict`). -/
def from_dict (data : Dict) : Gomoku :=
  let g := init data.player1_id data.player2_id data.board_size
  { g with
    board := data.board
    current_player := data.current_player
    moves_count := data.moves_count
    is_finished := data.is_finished
    winner := data.winner
    player_symbols := data.player_symbols
    player_numbers := data.player_numbers
    player_colors := data.player_colors
    last_move := data.last_move }

end Gomoku

/-- Association-list get, used for the Python dicts whose code also tests
dictionary emptiness. -/
def alGet {β : Type} (l : List (String × β)) (k : String) : Option β :=
  l.lookup k

/-- Association-list insertion: replace the binding if the key is present,
append it otherwise (Python dict update semantics). -/
def alSet {β : Type} : List (String × β) → String → β → List (String × β)
  | [], k, v => [(k, v)]
  | (k', v') :: rest, k, v =>
    if k' = k then (k, v) :: rest else (k', v') :: alSet rest k v

/-- Association-list deletion of the (unique) binding of a key. -/
def alErase {β : Type} : List (String × β) → String → List (String × β)
  | [], _ => []
  | (k', v') :: rest, k =>
    if k' = k then rest else (k', v') :: alErase rest k

/-- Mirror of `GameSession` in `core/game_manager.py`; wall-clock reads of
`datetime.utcnow()` are passed in as the `now` argument of `init`. -/
structure GameSession where
  game_id : String
  game_type : String
  player1_id : String
  player2_id : String
  group_id : String
  bot_id : Int
  current_player : String
  start_time : Int
  last_move_time : Int
  moves_count : Nat
  is_finished : Bool
  winner_id : Option String
  is_ai_game : Bool
deriving Repr

/-- Mirror of `GameSession.__init__`. -/
def GameSession.init (game_id game_type player1_id player2_id group_id : String)
    (bot_id : Int) (now : Int) : GameSession :=
  { game_id := game_id
    game_type := game_type
    player1_id := player1_id
    player2_id := player2_id
    group_id := group_id
    bot_id := bot_id
    current_player := player1_id
    start_time := now
    last_move_time := now
    moves_count := 0
    is_finished := false
    winner_id := none
    is_ai_game := player2_id == "AI" }

/-- Nested waiting dict: group id → game type → list of (user id, enqueue
timestamp), mirroring `self.waiting_players`. -/
def WaitingMap : Type := List (String × List (String × List (String × Int)))

/-- Mirror of the `GameManager` state. -/
structure GameManager where
  active_games : String → Option GameSession
  user_games : String → Option String
  group_games : String → Option (List String)
  bot_games : Int → Option (List String)
  waiting_players : WaitingMap

/-- Mirror of `GameManager.__init__`. -/
def emptyManager : GameManager :=
  { active_games := fun _ => none
    user_games := fun _ => none
    group_games := fun _ => none
    bot_games := fun _ => none
    waiting_players := [] }

namespace GameManager

/-- Mirror of `GameManager.generate_game_id`; `time.time()` is passed in as
`timestamp`. -/
def generate_game_id (game_type player1_id group_id : String) (timestamp : Int) : String :=
  game_type ++ "_" ++ group_id ++ "_" ++ player1_id ++ "_" ++ toString timestamp

/-- Mirror of `GameManager.create_game`; the two `raise Exception(...)`
paths become `Except.error` carrying the raised message. -/
def create_game (m : GameManager) (game_type player1_id player2_id group_id : String)
    (bot_id : Int) (timestamp : Int) : Except String (GameSession × GameManager) :=
  if (m.user_games player1_id).isSome then
    .error "玩家1已经在其他游戏中"
  else if player2_id ≠ "AI" ∧ (m.user_games player2_id).isSome then
    .error "玩家2已经在其他游戏中"
  else
    let game_id := generate_game_id game_type player1_id group_id timestamp
    let session := GameSession.init game_id game_type player1_id player2_id group_id
      bot_id timestamp
    let users := fmInsert m.user_games player1_id game_id
    let users := if player2_id ≠ "AI" then fmInsert users player2_id game_id else users
    .ok (session,
      { m with
        active_games := fmInsert m.active_games game_id session
        user_games := users
        group_games := fmInsert m.group_games group_id
          (((m.group_games group_id).getD []) ++ [game_id])
        bot_games := fmInsert m.bot_games bot_id
          (((m.bot_games bot_id).getD []) ++ [game_id]) })

/-- Mirror of `GameManager.remove_game`. -/
def remove_game (m : GameManager) (game_id : String) : Bool × GameManager :=
  match m.active_games game_id with
  | none => (false, m)
  | some session =>
    let users :=
      if (m.user_games session.player1_id).isSome then
        fmErase m.user_games session.player1_id
      else m.user_games
    let users :=
      if session.player2_id ≠ "AI" ∧ (users session.player2_id).isSome then
        fmErase users session.player2_id
      else users
    let groups :=
      match m.group_games session.group_id with
      | none => m.group_games
      | some l =>
        let l := if game_id ∈ l then l.erase game_id else l
        if l = [] then fmErase m.group_games session.group_id
        else fmInsert m.group_games session.group_id l
    let bots :=
      match m.bot_games session.bot_id with
      | none => m.bot_games
      | some l =>
        let l := if game_id ∈ l then l.erase game_id else l
        if l = [] then fmErase m.bot_games session.bot_id
        else fmInsert m.bot_games session.bot_id l
    (true,
      { m with
        active_games := fmErase m.active_games game_id
        user_games := users
        group_games := groups
        bot_games := bots })

/-- Mirror of `GameManager._cleanup_expired_waiting_players`; `time.time()`
is passed in as `now`. -/
def cleanup_expired_waiting_players (w : WaitingMap) (group_id game_type : String)
    (timeout_minutes : Int) (now : Int) : WaitingMap :=
  match alGet w group_id with
  | none => w
  | some inner =>
    match alGet inner game_type with
    | none => w
    | some waiting_list =>
      let valid_players := waiting_list.filter (fun e => now - e.2 < timeout_minutes * 60)
      if valid_players.length ≠ waiting_list.length then
        if valid_players ≠ [] then
          alSet w group_id (alSet inner game_type valid_players)
        else
          let inner' := alErase inner game_type
          if inner' = [] then alErase w group_id else alSet w group_id inner'
      else w

/-- Mirror of `GameManager.add_waiting_player`.  The source captures the
local alias `waiting_list` BEFORE calling the cleanup; when the cleanup
rebinds or deletes the stored list, the later `pop(0)` and the emptiness
test still act on the stale alias, and the final
`del self.waiting_players[group_id][game_type]` can hit a key the cleanup
already deleted, raising `KeyError`. -/
def add_waiting_player (m : GameManager) (user_id group_id game_type : String)
    (timeout_minutes : Int) (now : Int) : Except PyErr (Option String × GameManager) :=
  let w0 := m.waiting_players
  let w1 := if (alGet w0 group_id).isSome then w0 else alSet w0 group_id []
  let inner1 := (alGet w1 group_id).getD []
  let w2 :=
    if (alGet inner1 game_type).isSome then w1
    else alSet w1 group_id (alSet inner1 game_type [])
  let waiting_list := (alGet ((alGet w2 group_id).getD []) game_type).getD []
  let w3 := cleanup_expired_waiting_players w2 group_id game_type timeout_minutes now
  let valid := waiting_list.filter (fun e => now - e.2 < timeout_minutes * 60)
  let shared := valid.length = waiting_list.length
  if waiting_list.any (fun e => e.1 == user_id) then
    .ok (none, { m with waiting_players := w3 })
  else
    match waiting_list with
    | (opponent_id, _) :: rest =>
      let w4 :=
        if shared then alSet w3 group_id (alSet ((alGet w3 group_id).getD []) game_type rest)
        else w3
      if rest = [] then
        match alGet w4 group_id with
        | none => .error .keyError
        | some inner =>
          if (alGet inner game_type).isSome then
            let inner' := alErase inner game_type
            let w5 := if inner' = [] then alErase w4 group_id else alSet w4 group_id inner'
            .ok (some opponent_id, { m with waiting_players := w5 })
          else .error .keyError
      else
        .ok (some opponent_id, { m with waiting_players := w4 })
    | [] =>
      let w4 := alSet w3 group_id (alSet ((alGet w3 group_id).getD []) game_type [(user_id, now)])
      .ok (none, { m with waiting_players := w4 })

end GameManager

end ChessGames

namespace RussianRoulette

/-- Mirror of `Player` in `RussianRoulette/game.py`; `hp = max(0, hp - damage)`
always keeps `hp` non-negative, so `Nat` with truncated subtraction is
exact. -/
structure Player where
  name : String
  hp : Nat
  max_hp : Nat
  items : List String
  is_ai : Bool
deriving DecidableEq, Repr

/-- Mirror of `Player.is_alive`. -/
def Player.is_alive (p : Player) : Bool := p.hp > 0

/-- Mirror of `Player.take_damage`: the mutated player and the returned
"died" flag. -/
def Player.take_damage (p : Player) (damage : Nat) : Player × Bool :=
  let p' := { p with hp := p.hp - damage }
  (p', !p'.is_alive)

/-- Mirror of `Player.heal`: the mutated player and the returned actual
amount healed. -/
def Player.heal (p : Player) (amount : Nat) : Player × Nat :=
  let newHp := min p.max_hp (p.hp + amount)
  ({ p with hp := newHp }, newHp - p.hp)

/-- Mirror of `GameState` in `RussianRoulette/game.py`. -/
structure GameState where
  bullets : List Bool
  current_bullet : Nat
  current_player : Nat
  round_num : Nat
  damage_multiplier : Nat
  game_over : Bool
  winner : Option String
deriving DecidableEq, Repr

/-- Mirror of `GameState.is_current_bullet_real`. -/
def GameState.is_current_bullet_real (s : GameState) : Bool :=
  if s.current_bullet ≥ s.bullets.length then false
  else s.bullets.getD s.current_bullet false

/-- Mirror of `GameState.advance_bullet`. -/
def GameState.advance_bullet (s : GameState) : GameState :=
  { s with current_bullet := s.current_bullet + 1 }

/-- Mirror of the class attribute `RussianRouletteGame.ITEMS`:
key → (display name, description). -/
def ITEMS : List (String × String × String) :=
  [("magnifier", "🔍放大镜", "查看下一发子弹"),
   ("cigarette", "🚬香烟", "恢复1点生命"),
   ("saw", "⚡锯子", "下次实弹伤害翻倍"),
   ("handcuffs", "🔗手铐", "对手跳过下回合"),
   ("beer", "🍺啤酒", "跳过当前子弹"),
   ("medicine", "💊药品", "恢复2点生命"),
   ("adrenaline", "💉肾上腺素", "偷取对手道具"),
   ("inverter", "🔄逆转器", "反转枪口方向")]

/-- Draws of the pseudo-random generator consumed by one `_start_new_round`
call: the shuffled bullet list produced from `randint`/`shuffle`, and the
two `random.sample` item hands. -/
structure RoundData where
  bullets : List Bool
  player_items : List String
  ai_items : List String
deriving DecidableEq, Repr

/-- What `random` guarantees about one round's draws: the bullet list has
`bullet_count` entries of which between 1 and `bullet_count - 1` are real,
and each hand is a sample of `item_count` distinct item keys. -/
def RoundData.WF (rd : RoundData) (bullet_count item_count : Nat) : Prop :=
  rd.bullets.length = bullet_count ∧
  1 ≤ rd.bullets.count true ∧ rd.bullets.count true ≤ bullet_count - 1 ∧
  rd.player_items.length = item_count ∧ rd.player_items.Nodup ∧
  (∀ k ∈ rd.player_items, (ITEMS.lookup k).isSome) ∧
  rd.ai_items.length = item_count ∧ rd.ai_items.Nodup ∧
  (∀ k ∈ rd.ai_items, (ITEMS.lookup k).isSome)

/-- Mirror of the `RussianRouletteGame` instance state. -/
structure RussianRouletteGame where
  player : Player
  ai : Player
  state : GameState
  difficulty : String
  skip_next_turn : Bool
  last_action : String
  bullet_count : Nat
  item_count : Nat
deriving DecidableEq, Repr

namespace RussianRouletteGame

/-- Mirror of `_start_new_round` followed by `_distribute_items`, with the
random draws supplied by `rd`. -/
def start_new_round (g : RussianRouletteGame) (rd : RoundData) : RussianRouletteGame :=
  { g with
    state := { g.state with
      bullets := rd.bullets
      current_bullet := 0
      damage_multiplier := 1 }
    player := { g.player with items := rd.player_items }
    ai := { g.ai with items := rd.ai_items } }

/-- Mirror of `RussianRouletteGame.__init__`. -/
def init (player_name : String) (difficulty : String) (rd : RoundData) :
    RussianRouletteGame :=
  let counts : Nat × Nat :=
    if difficulty = "easy" then (6, 4)
    else if difficulty = "hard" then (8, 3)
    else (6, 3)
  start_new_round
    { player := ⟨player_name, 3, 3, [], false⟩
      ai := ⟨"人机", 3, 3, [], true⟩
      state := ⟨[], 0, 0, 1, 1, false, none⟩
      difficulty := difficulty
      skip_next_turn := false
      last_action := ""
      bullet_count := counts.1
      item_count := counts.2 } rd

/-- Mirror of `get_current_player`. -/
def get_current_player (g : RussianRouletteGame) : Player :=
  if g.state.current_player = 0 then g.player else g.ai

/-- Mirror of `get_opponent`. -/
def get_opponent (g : RussianRouletteGame) : Player :=
  if g.state.current_player = 0 then g.ai else g.player

/-- Mirror of `switch_turn`. -/
def switch_turn (g : RussianRouletteGame) : RussianRouletteGame :=
  { g with state := { g.state with current_player := 1 - g.state.current_player } }

/-- Update whichever of the two `Player` records the current turn and
`target_self` select as the target of a shot. -/
def updateTarget (g : RussianRouletteGame) (targetIsPlayer : Bool) (f : Player → Player) :
    RussianRouletteGame :=
  if targetIsPlayer then { g with player := f g.player } else { g with ai := f g.ai }

/-- Mirror of the returned dict of `shoot`. -/
structure ShootResult where
  shooter : String
  target : String
  is_real : Bool
  damage : Nat
  target_died : Bool
  continue_turn : Bool
deriving DecidableEq, Repr

/-- Hit phase of `RussianRouletteGame.shoot` (the `if is_real:`/`else:`
block): the returned `target_died`/`continue_turn` flags and the game after
damage and game-over bookkeeping, before the bullet advances.  The source's
`target_player == current_player` is dataclass field equality, modelled as
decidable equality of the two `Player` records. -/
def shootHit (g : RussianRouletteGame) (target_self : Bool) :
    Bool × Bool × RussianRouletteGame :=
  let targetIsPlayer := if g.state.current_player = 0 then target_self else !target_self
  let target := if targetIsPlayer then g.player else g.ai
  let is_real := g.state.is_current_bullet_real
  let damage := if is_real then g.state.damage_multiplier else 0
  if is_real then
    let td := target.take_damage damage
    let targetAfter := td.1
    let target_died := td.2
    let g1 := g.updateTarget targetIsPlayer (fun _ => targetAfter)
    let currentAfter := g1.get_current_player
    let g2 :=
      if target_died then
        { g1 with state := { g1.state with
            game_over := true
            winner := some (if targetAfter = currentAfter then g1.get_opponent.name
              else currentAfter.name) } }
      else g1
    (target_died, false, g2)
  else
    (false, target_self, g)

/-- Mirror of `RussianRouletteGame.shoot`; `rd` supplies the random draws
consumed if the shot exhausts the bullets and starts a new round. -/
def shoot (g : RussianRouletteGame) (target_self : Bool) (rd : RoundData) :
    ShootResult × RussianRouletteGame :=
  let current := g.get_current_player
  let targetIsPlayer := if g.state.current_player = 0 then target_self else !target_self
  let target := if targetIsPlayer then g.player else g.ai
  let is_real := g.state.is_current_bullet_real
  let damage := if is_real then g.state.damage_multiplier else 0
  let hit := shootHit g target_self
  let g3 := hit.2.2
  let g4 := { g3 with state := (g3.state.advance_bullet) }
  let g5 := { g4 with state := { g4.state with damage_multiplier := 1 } }
  let g6 :=
    if g5.state.bullets.length ≤ g5.state.current_bullet && !g5.state.game_over then
      start_new_round { g5 with state := { g5.state with round_num := g5.state.round_num + 1 } } rd
    else g5
  (⟨current.name, target.name, is_real, damage, hit.1, hit.2.1⟩, g6)

/-- Mirror of the returned dict of `use_item`: the failure dict carries only
`success`/`message`, the success dict `success`/`item`/`effect`. -/
structure UseItemResult where
  success : Bool
  item : String
  effect : String
  message : String
deriving DecidableEq, Repr

/-- Mirror of `RussianRouletteGame.use_item`.  The `adrenaline` and
`inverter` keys have no effect branch in the source, so their `effect`
stays empty and only the inventory changes.  `ITEMS[item_key]` on a key
outside the table would raise `KeyError`. -/
def use_item (g : RussianRouletteGame) (item_index : Int) :
    Except ChessGames.PyErr (UseItemResult × RussianRouletteGame) :=
  let current := g.get_current_player
  if item_index < 0 ∨ item_index ≥ (current.items.length : Int) then
    .ok (⟨false, "", "", "道具不存在"⟩, g)
  else
    let idx := item_index.toNat
    let item_key := current.items.getD idx ""
    match ITEMS.lookup item_key with
    | none => .error .keyError
    | some item_info =>
      let applied : String × RussianRouletteGame :=
        if item_key = "magnifier" then
          if g.state.current_bullet < g.state.bullets.length then
            ("下一发是: " ++ (if g.state.is_current_bullet_real then "实弹" else "空弹"), g)
          else ("没有子弹了", g)
        else if item_key = "cigarette" then
          let h := current.heal 1
          (("恢复了" ++ toString h.2 ++ "点生命"),
            if g.state.current_player = 0 then { g with player := h.1 } else { g with ai := h.1 })
        else if item_key = "saw" then
          ("下次实弹伤害翻倍", { g with state := { g.state with damage_multiplier := 2 } })
        else if item_key = "beer" then
          if g.state.current_bullet < g.state.bullets.length then
            (("跳过了一发" ++ (if g.state.is_current_bullet_real then "实弹" else "空弹")),
              { g with state := g.state.advance_bullet })
          else ("没有子弹可跳过", g)
        else if item_key = "medicine" then
          let h := current.heal 2
          (("恢复了" ++ toString h.2 ++ "点生命"),
            if g.state.current_player = 0 then { g with player := h.1 } else { g with ai := h.1 })
        else if item_key = "handcuffs" then
          ("对手将跳过下回合", { g with skip_next_turn := true })
        else ("", g)
      let g1 := applied.2
      let g2 :=
        if g1.state.current_player = 0 then
          { g1 with player := { g1.player with items := g1.player.items.eraseIdx idx } }
        else
          { g1 with ai := { g1.ai with items := g1.ai.items.eraseIdx idx } }
      .ok (⟨true, item_info.1, applied.1, ""⟩, g2)

end RussianRouletteGame

end RussianRoulette

open ChessGames RussianRoulette

/-- C9: serialization round-trip.  For every `TicTacToe` and every `Gomoku`
game state, `from_dict` applied to `to_dict` reproduces the board grid, the
current player, the move count and the terminal state (`is_finished` and
`winner`) of the original game. -/
theorem c9_serialization_roundtrip (t : TicTacToe) (g : Gomoku) :
    ((TicTacToe.from_dict t.to_dict).board = t.board ∧
      (TicTacToe.from_dict t.to_dict).current_player = t.current_player ∧
      (TicTacToe.from_dict t.to_dict).moves_count = t.moves_count ∧
      (TicTacToe.from_dict t.to_dict).is_finished = t.is_finished ∧
      (TicTacToe.from_dict t.to_dict).winner = t.winner) ∧
    ((Gomoku.from_dict g.to_dict).board = g.board ∧
      (Gomoku.from_dict g.to_dict).board_size = g.board_size ∧
      (Gomoku.from_dict g.to_dict).current_player = g.current_player ∧
      (Gomoku.from_dict g.to_dict).moves_count = g.moves_count ∧
      (Gomoku.from_dict g.to_dict).is_finished = g.is_finished ∧
      (Gomoku.from_dict g.to_dict).winner = g.winner) := by
  refine ⟨⟨rfl, rfl, rfl, rfl, rfl⟩, ⟨rfl, rfl, rfl, rfl, rfl, rfl⟩⟩

/-- C2: at-most-one-game rule.  For EVERY registry state (hence for every
reachable one), `create_game` with a `player1` already in the user index,
or with a non-AI `player2` already in it, fails with the corresponding
already-in-game exception.  In this pure embedding a failing `create_game`
returns only the error and no successor state, mirroring that the source
raises before touching any map, so no partial mutation is possible. -/
theorem c2_already_in_game (m : GameManager) (gt p1 p2 grp : String) (bid ts : Int) :
    ((m.user_games p1).isSome = true →
      m.create_game gt p1 p2 grp bid ts = .error "玩家1已经在其他游戏中") ∧
    ((m.user_games p1).isSome = false → p2 ≠ "AI" → (m.user_games p2).isSome = true →
      m.create_game gt p1 p2 grp bid ts = .error "玩家2已经在其他游戏中") := by
  constructor
  · intro h
    simp [GameManager.create_game, h]
  · intro h1 h2 h3
    simp [GameManager.create_game, h1, h2, h3]

/-- Registry used by the C2 witness: one user already holds a game id. -/
def c2WitnessManager : GameManager :=
  { emptyManager with user_games := fmInsert emptyManager.user_games "u1" "gid0" }

theorem c2_already_in_game_witness :
    c2WitnessManager.create_game "tictactoe" "u1" "AI" "g1" 7 100 =
      .error "玩家1已经在其他游戏中" :=
  (c2_already_in_game c2WitnessManager "tictactoe" "u1" "AI" "g1" 7 100).1 (by decide)

/-- C4: three-in-a-row terminal behaviour.  A call on a finished game
returns `INVALID` and leaves the whole game state (board, move count, turn,
winner, flags) unchanged; a legal call (game not finished, mover's turn,
valid position) returns exactly one of `WIN`/`DRAW`/`CONTINUE`, and when it
returns `WIN` or `DRAW` the successor state has `is_finished = true` (so by
the first part every subsequent call returns `INVALID` without changes). -/
theorem c4_tictactoe_terminal (g : TicTacToe) (pid : String) (mv : Int) :
    (g.is_finished = true →
      g.make_move pid mv = (⟨.INVALID, none, "\n❌ 游戏已结束", true⟩, g)) ∧
    (g.is_finished = false → g.is_player_turn pid = true → g.is_valid_move mv = true →
      ((g.make_move pid mv).1.result = .WIN ∨ (g.make_move pid mv).1.result = .DRAW ∨
        (g.make_move pid mv).1.result = .CONTINUE) ∧
      (((g.make_move pid mv).1.result = .WIN ∨ (g.make_move pid mv).1.result = .DRAW) →
        (g.make_move pid mv).2.is_finished = true)) := by
  constructor
  · intro h
    simp [TicTacToe.make_move, h]
  · intro h1 h2 h3
    simp only [TicTacToe.make_move, h1, h2, h3, Bool.not_true, if_false, ite_false,
      Bool.false_eq_true]
    split
    · simp [TicTacToe.finish_game]
    · split
      · simp [TicTacToe.finish_game]
      · simp [TicTacToe.switch_player]

theorem c4_tictactoe_terminal_witness :
    (((TicTacToe.init "a" "b").make_move "a" 5).1.result = .WIN ∨
      ((TicTacToe.init "a" "b").make_move "a" 5).1.result = .DRAW ∨
      ((TicTacToe.init "a" "b").make_move "a" 5).1.result = .CONTINUE) ∧
    ((((TicTacToe.init "a" "b").make_move "a" 5).1.result = .WIN ∨
      ((TicTacToe.init "a" "b").make_move "a" 5).1.result = .DRAW) →
      (((TicTacToe.init "a" "b").make_move "a" 5).2.is_finished = true)) :=
  (c4_tictactoe_terminal (TicTacToe.init "a" "b") "a" 5).2 rfl (by decide) (by decide)

/-- C10: the `adrenaline` and `inverter` keys are advertised in `ITEMS`
with concrete effects, but `use_item` has no effect branch for them: on a
valid slot holding one of them it succeeds, reports an empty effect, and
the ONLY state change is the removal of the item from the current player's
inventory. -/
theorem c10_adrenaline_inverter_noop (g : RussianRouletteGame) (i : Nat)
    (h : i < g.get_current_player.items.length)
    (hkey : g.get_current_player.items.getD i "" = "adrenaline" ∨
      g.get_current_player.items.getD i "" = "inverter") :
    g.use_item i =
      .ok (⟨true,
        (if g.get_current_player.items.getD i "" = "adrenaline" then "💉肾上腺素"
          else "🔄逆转器"), "", ""⟩,
        if g.state.current_player = 0 then
          { g with player := { g.player with items := g.player.items.eraseIdx i } }
        else
          { g with ai := { g.ai with items := g.ai.items.eraseIdx i } }) := by
  have hneg : ¬((i : Int) < 0 ∨ (i : Int) ≥ (g.get_current_player.items.length : Int)) := by
    omega
  rcases hkey with hk | hk
  · simp only [RussianRouletteGame.use_item]
    rw [if_neg hneg]
    simp only [Int.toNat_natCast, hk]
    simp [ITEMS]
    rfl
  · simp only [RussianRouletteGame.use_item]
    rw [if_neg hneg]
    simp only [Int.toNat_natCast, hk]
    simp [ITEMS]
    rfl

/-- Game used by the roulette witnesses: a fresh normal-difficulty duel with
a known bullet order and known hands. -/
def rouletteWitnessGame : RussianRouletteGame :=
  RussianRouletteGame.init "u" "normal"
    ⟨[false, true, false, false, false, true],
      ["adrenaline", "inverter", "beer"], ["magnifier", "cigarette", "saw"]⟩

theorem c10_adrenaline_inverter_noop_witness :
    rouletteWitnessGame.use_item 0 =
      .ok (⟨true,
        (if rouletteWitnessGame.get_current_player.items.getD 0 "" = "adrenaline" then "💉肾上腺素"
          else "🔄逆转器"), "", ""⟩,
        if rouletteWitnessGame.state.current_player = 0 then
          { rouletteWitnessGame with player :=
            { rouletteWitnessGame.player with
              items := rouletteWitnessGame.player.items.eraseIdx 0 } }
        else
          { rouletteWitnessGame with ai :=
            { rouletteWitnessGame.ai with
              items := rouletteWitnessGame.ai.items.eraseIdx 0 } }) :=
  c10_adrenaline_inverter_noop rouletteWitnessGame 0 (by decide) (Or.inl (by decide))

/-- C6 (code bug): `Gomoku._parse_move` checks `len(move) < 2` BEFORE
`upper().strip()`, so the two-space input `"  "` passes the guard, strips
to the empty string, and `move[0]` raises an uncaught `IndexError` that
propagates out of `make_move` — contradicting the spec's requirement that
malformed coordinates are rejected as `Invalid` and never raised. -/
theorem c6_parse_crash_on_whitespace :
    (Gomoku.init "p1" "p2" 15).make_move "p1" "  " = .error .indexError := by
  rfl

/-- Matchmaker state after user `"A"` enqueued in group `"g"` for gomoku at
time 0 (built by executing the embedded `add_waiting_player`). -/
def c3Manager : GameManager :=
  match emptyManager.add_waiting_player "A" "g" "gomoku" 1 0 with
  | .ok p => p.2
  | .error _ => emptyManager

/-- C3 (code bug): `add_waiting_player` captures the `waiting_list` alias
BEFORE the lazy purge.  When the sole waiter `"A"` has expired (enqueued at
time 0, next call at time 61 with a 1-minute timeout), the purge deletes
the queue's dict keys, but the stale alias is still non-empty, so the code
pops the EXPIRED player as the matched opponent and then executes
`del self.waiting_players[group_id][game_type]` on the already-deleted key,
raising `KeyError` — instead of enqueueing `"B"` as the spec describes. -/
theorem c3_expired_waiter_keyerror :
    c3Manager.add_waiting_player "B" "g" "gomoku" 1 61 = .error .keyError := by
  rfl

/-- Successor state of `use_item`; the `KeyError` branch (unreachable for
hands dealt from `ITEMS`) leaves the state unchanged. -/
def afterUseItem (g : RussianRouletteGame) (i : Int) : RussianRouletteGame :=
  match g.use_item i with
  | .ok p => p.2
  | .error _ => g

/-- Round draws handed to `shoot` calls whose reset branch is not taken, and
consumed by the reset in the C7 witness. -/
def dummyRound : RoundData :=
  ⟨[true, false, false, false, false, false],
    ["magnifier", "cigarette", "saw"], ["beer", "medicine", "handcuffs"]⟩

/-- Normal-difficulty duel whose first round has its only real bullet last
and a beer in the player's hand. -/
def c7Game : RussianRouletteGame :=
  RussianRouletteGame.init "u" "normal"
    ⟨[false, false, false, false, false, true],
      ["beer", "magnifier", "cigarette"], ["magnifier", "cigarette", "saw"]⟩

/-- State of `c7Game` after five blank self-shots: cursor 5 of 6, round 1. -/
def c7AfterShots : RussianRouletteGame :=
  (((((c7Game.shoot true dummyRound).2.shoot true dummyRound).2.shoot
    true dummyRound).2.shoot true dummyRound).2.shoot true dummyRound).2

/-- State of `c7AfterShots` after the player drinks the beer at slot 0,
skipping the last bullet. -/
def c7AfterBeer : RussianRouletteGame := afterUseItem c7AfterShots 0

/-- C7 counterexample: drinking a beer on the last bullet EXHAUSTS the
bullet sequence (cursor = length = 6) yet triggers NO new-round reset — the
round number stays 1, the bullet list is unchanged and the cursor is not
reset to 0; the reset only happens at the next `shoot`.  This refutes the
claim that exhausting the sequence without a lethal hit (by any
shoot/use_item(beer) sequence) triggers the reset. -/
theorem c7_beer_exhaustion_no_reset :
    c7AfterBeer.state.current_bullet = c7AfterBeer.state.bullets.length ∧
    c7AfterBeer.state.current_bullet = 6 ∧
    c7AfterBeer.state.round_num = 1 ∧
    c7AfterBeer.state.bullets = c7Game.state.bullets ∧
    c7AfterBeer.state.game_over = false := by
  decide

/-- Real current bullet forces the cursor strictly inside the sequence. -/
theorem is_current_bullet_real_lt {s : GameState}
    (h : s.is_current_bullet_real = true) : s.current_bullet < s.bullets.length := by
  by_contra hge
  simp [GameState.is_current_bullet_real, Nat.lt_iff_add_one_le] at hge h
  omega

/-- Hit phase of a shot: every state field except `game_over`/`winner` is
untouched. -/
theorem shootHit_state_core (g : RussianRouletteGame) (t : Bool) :
    (RussianRouletteGame.shootHit g t).2.2.state.bullets = g.state.bullets ∧
    (RussianRouletteGame.shootHit g t).2.2.state.current_bullet = g.state.current_bullet ∧
    (RussianRouletteGame.shootHit g t).2.2.state.current_player = g.state.current_player ∧
    (RussianRouletteGame.shootHit g t).2.2.state.round_num = g.state.round_num ∧
    (RussianRouletteGame.shootHit g t).2.2.state.damage_multiplier
      = g.state.damage_multiplier := by
  simp only [RussianRouletteGame.shootHit, RussianRouletteGame.updateTarget]
  split_ifs <;> simp

/-- Hit phase of a shot: `game_over` can only become true through a real
bullet (or have been true already). -/
theorem shootHit_game_over_cases (g : RussianRouletteGame) (t : Bool) :
    (RussianRouletteGame.shootHit g t).2.2.state.game_over = true →
    g.state.game_over = true ∨ g.state.is_current_bullet_real = true := by
  simp only [RussianRouletteGame.shootHit, RussianRouletteGame.updateTarget]
  split_ifs <;> simp_all

/-- Hit phase of a shot: inventories are untouched (only hp can change). -/
theorem shootHit_items (g : RussianRouletteGame) (t : Bool) :
    (RussianRouletteGame.shootHit g t).2.2.player.items = g.player.items ∧
    (RussianRouletteGame.shootHit g t).2.2.ai.items = g.ai.items := by
  simp only [RussianRouletteGame.shootHit, RussianRouletteGame.updateTarget,
    Player.take_damage]
  split_ifs <;> simp

/-- C7 (amended): within one round the cursor is monotone and bounded — a
`shoot` that does not bump the round number never decreases the cursor, any
`use_item` (beer included) never decreases it, never changes round or
bullet list, and keeps it within the sequence length; a `shoot` from a
position where it exhausts the sequence without ending the game performs
EXACTLY ONE new-round reset: round number + 1, cursor 0, the freshly drawn
bullet list installed (with its real count in `[1, bullet_count-1]` and
full length whenever the draws are well-formed) and fresh hands dealt to
both players.  Exhaustion via beer, by contrast, defers the reset to the
next shoot (see the counterexample). -/
theorem c7_cursor_monotone_reset_on_shoot :
    (∀ (g : RussianRouletteGame) (t : Bool) (rd : RoundData),
      g.state.game_over = false →
      g.state.current_bullet ≤ g.state.bullets.length →
      (((g.shoot t rd).2.state.round_num = g.state.round_num →
          g.state.current_bullet ≤ (g.shoot t rd).2.state.current_bullet) ∧
        (g.shoot t rd).2.state.current_bullet ≤ (g.shoot t rd).2.state.bullets.length)) ∧
    (∀ (g : RussianRouletteGame) (i : Int),
      g.state.current_bullet ≤ g.state.bullets.length →
      (g.state.current_bullet ≤ (afterUseItem g i).state.current_bullet ∧
        (afterUseItem g i).state.current_bullet ≤ (afterUseItem g i).state.bullets.length ∧
        (afterUseItem g i).state.round_num = g.state.round_num ∧
        (afterUseItem g i).state.bullets = g.state.bullets)) ∧
    (∀ (g : RussianRouletteGame) (t : Bool) (rd : RoundData),
      g.state.game_over = false →
      g.state.bullets.length ≤ g.state.current_bullet + 1 →
      (g.shoot t rd).2.state.game_over = false →
      ((g.shoot t rd).2.state.round_num = g.state.round_num + 1 ∧
        (g.shoot t rd).2.state.current_bullet = 0 ∧
        (g.shoot t rd).2.state.bullets = rd.bullets ∧
        (g.shoot t rd).2.state.damage_multiplier = 1 ∧
        (g.shoot t rd).2.player.items = rd.player_items ∧
        (g.shoot t rd).2.ai.items = rd.ai_items ∧
        (rd.WF g.bullet_count g.item_count →
          1 ≤ (g.shoot t rd).2.state.bullets.count true ∧
          (g.shoot t rd).2.state.bullets.count true ≤ g.bullet_count - 1 ∧
          (g.shoot t rd).2.state.bullets.length = g.bullet_count))) := by
  refine ⟨?_, ?_, ?_⟩
  · intro g t rd hgo hle
    obtain ⟨hb, hc, hcp, hr, hm⟩ := shootHit_state_core g t
    simp only [RussianRouletteGame.shoot, RussianRouletteGame.start_new_round,
      GameState.advance_bullet, hb, hc, hr]
    by_cases hag : (RussianRouletteGame.shootHit g t).2.2.state.game_over = true
    · have hlt : g.state.current_bullet < g.state.bullets.length := by
        rcases shootHit_game_over_cases g t hag with h | h
        · rw [hgo] at h; cases h
        · exact is_current_bullet_real_lt h
      simp [hag]
      omega
    · have hag' : (RussianRouletteGame.shootHit g t).2.2.state.game_over = false :=
        Bool.not_eq_true _ ▸ (by simpa using hag)
      by_cases hex : g.state.bullets.length ≤ g.state.current_bullet + 1
      · simp [hag', hex]
      · simp [hag', hex]
        omega
  · intro g i hle
    simp only [afterUseItem, RussianRouletteGame.use_item]
    by_cases hidx : i < 0 ∨ i ≥ ((RussianRouletteGame.get_current_player g).items.length : Int)
    · simp [hidx, hle]
    · simp only [hidx, if_false, ite_false]
      rcases hlk : List.lookup ((RussianRouletteGame.get_current_player g).items.getD
          i.toNat "") ITEMS with _ | ii
      · simp [hlk, hle]
      · simp only [hlk]
        split_ifs <;> simp_all [GameState.advance_bullet] <;> omega
  · intro g t rd hgo hex hafter
    obtain ⟨hb, hc, hcp, hr, hm⟩ := shootHit_state_core g t
    obtain ⟨hitP, hitA⟩ := shootHit_items g t
    by_cases hag : (RussianRouletteGame.shootHit g t).2.2.state.game_over = true
    · exfalso
      revert hafter
      simp only [RussianRouletteGame.shoot, RussianRouletteGame.start_new_round,
        GameState.advance_bullet]
      simp [hag]
    · have hag' : (RussianRouletteGame.shootHit g t).2.2.state.game_over = false :=
        Bool.not_eq_true _ ▸ (by simpa using hag)
      simp only [RussianRouletteGame.shoot, RussianRouletteGame.start_new_round,
        GameState.advance_bullet]
      simp [hb, hc, hr, hag', hitP, hitA, hex]
      intro hwf
      obtain ⟨hlen, hcnt1, hcnt2, -⟩ := hwf
      refine ⟨?_, by omega, by omega⟩
      have hpos : 0 < rd.bullets.count true := by omega
      exact List.count_pos_iff.mp hpos

theorem c7_cursor_monotone_reset_on_shoot_witness :
    (((c7Game.shoot true dummyRound).2.state.round_num = c7Game.state.round_num →
        c7Game.state.current_bullet ≤ (c7Game.shoot true dummyRound).2.state.current_bullet) ∧
      (c7Game.shoot true dummyRound).2.state.current_bullet ≤
        (c7Game.shoot true dummyRound).2.state.bullets.length) ∧
    (c7AfterShots.state.current_bullet ≤ (afterUseItem c7AfterShots 0).state.current_bullet ∧
      (afterUseItem c7AfterShots 0).state.current_bullet ≤
        (afterUseItem c7AfterShots 0).state.bullets.length ∧
      (afterUseItem c7AfterShots 0).state.round_num = c7AfterShots.state.round_num ∧
      (afterUseItem c7AfterShots 0).state.bullets = c7AfterShots.state.bullets) ∧
    ((c7AfterShots.shoot true dummyRound).2.state.round_num
        = c7AfterShots.state.round_num + 1 ∧
      (c7AfterShots.shoot true dummyRound).2.state.current_bullet = 0 ∧
      (c7AfterShots.shoot true dummyRound).2.state.bullets = dummyRound.bullets ∧
      (c7AfterShots.shoot true dummyRound).2.state.damage_multiplier = 1 ∧
      (c7AfterShots.shoot true dummyRound).2.player.items = dummyRound.player_items ∧
      (c7AfterShots.shoot true dummyRound).2.ai.items = dummyRound.ai_items ∧
      (dummyRound.WF c7AfterShots.bullet_count c7AfterShots.item_count →
        1 ≤ (c7AfterShots.shoot true dummyRound).2.state.bullets.count true ∧
        (c7AfterShots.shoot true dummyRound).2.state.bullets.count true ≤
          c7AfterShots.bullet_count - 1 ∧
        (c7AfterShots.shoot true dummyRound).2.state.bullets.length
          = c7AfterShots.bullet_count)) :=
  ⟨c7_cursor_monotone_reset_on_shoot.1 c7Game true dummyRound (by decide) (by decide),
    c7_cursor_monotone_reset_on_shoot.2.1 c7AfterShots 0 (by decide),
    c7_cursor_monotone_reset_on_shoot.2.2 c7AfterShots true dummyRound
      (by decide) (by decide) (by decide)⟩

/-- Normal-difficulty duel with a saw in the player's hand, a blank first
bullet and a real second bullet. -/
def c8Game : RussianRouletteGame :=
  RussianRouletteGame.init "u" "normal"
    ⟨[false, true, false, false, false, true],
      ["saw", "beer", "magnifier"], ["magnifier", "cigarette", "saw"]⟩

/-- State of `c8Game` after the player uses the saw (multiplier armed). -/
def c8AfterSaw : RussianRouletteGame := afterUseItem c8Game 0

/-- First shot after the saw: a blank self-shot. -/
def c8Shot1 : RussianRouletteGame.ShootResult × RussianRouletteGame :=
  c8AfterSaw.shoot true dummyRound

/-- Second shot after the saw: the real bullet, fired at the opponent. -/
def c8Shot2 : RussianRouletteGame.ShootResult × RussianRouletteGame :=
  c8Shot1.2.shoot false dummyRound

/-- C8 counterexample: the saw arms the double-damage multiplier, but an
intervening BLANK self-shot resets it to 1 (`shoot` unconditionally resets
the multiplier), so the next real hit deals only 1 damage (opponent hp
3 → 2), not 2 — refuting the claim that the multiplier stays armed across
blank shots until a real hit consumes it. -/
theorem c8_blank_shot_disarms_saw :
    c8AfterSaw.state.damage_multiplier = 2 ∧
    c8Shot1.1.is_real = false ∧
    c8Shot1.2.state.damage_multiplier = 1 ∧
    c8Shot2.1.is_real = true ∧
    c8Shot2.1.damage = 1 ∧
    c8Shot2.2.ai.hp = 2 := by
  decide

/-- C8 (amended): the saw is a one-shot multiplier for the IMMEDIATELY next
shot: using a saw sets the damage multiplier to 2; a real bullet deals
exactly the armed multiplier as damage (so 2 right after a saw, 1 when
unarmed) and a blank deals 0; and EVERY shot — real or blank, reset or not —
leaves the multiplier back at 1, so a blank fired after arming wastes the
saw. -/
theorem c8_saw_one_shot_multiplier :
    (∀ (g : RussianRouletteGame) (i : Nat),
      i < g.get_current_player.items.length →
      g.get_current_player.items.getD i "" = "saw" →
      (afterUseItem g i).state.damage_multiplier = 2) ∧
    (∀ (g : RussianRouletteGame) (t : Bool) (rd : RoundData),
      (g.shoot t rd).1.damage
        = if g.state.is_current_bullet_real then g.state.damage_multiplier else 0) ∧
    (∀ (g : RussianRouletteGame) (t : Bool) (rd : RoundData),
      (g.shoot t rd).2.state.damage_multiplier = 1) := by
  refine ⟨?_, ?_, ?_⟩
  · intro g i h hk
    have hneg : ¬((i : Int) < 0 ∨ (i : Int) ≥ (g.get_current_player.items.length : Int)) := by
      omega
    simp only [afterUseItem, RussianRouletteGame.use_item]
    rw [if_neg hneg]
    simp only [Int.toNat_natCast, hk]
    rw [show List.lookup "saw" ITEMS = some ("⚡锯子", "下次实弹伤害翻倍") from rfl]
    by_cases hcp0 : g.state.current_player = 0 <;> simp [hcp0]
  · intro g t rd
    rfl
  · intro g t rd
    obtain ⟨hb, hc, hcp, hr, hm⟩ := shootHit_state_core g t
    simp only [RussianRouletteGame.shoot, RussianRouletteGame.start_new_round,
      GameState.advance_bullet]
    by_cases hreset : (((RussianRouletteGame.shootHit g t).2.2.state.bullets.length ≤
        (RussianRouletteGame.shootHit g t).2.2.state.current_bullet + 1 : Bool) &&
        !(RussianRouletteGame.shootHit g t).2.2.state.game_over) = true
    · simp [hreset]
    · simp [hreset]

theorem c8_saw_one_shot_multiplier_witness :
    (afterUseItem c8Game 0).state.damage_multiplier = 2 ∧
    (c8Shot1.2.shoot false dummyRound).1.damage
      = (if c8Shot1.2.state.is_current_bullet_real then c8Shot1.2.state.damage_multiplier
          else 0) ∧
    (c8Game.shoot true dummyRound).2.state.damage_multiplier = 1 :=
  ⟨c8_saw_one_shot_multiplier.1 c8Game 0 (by decide) (by decide),
    c8_saw_one_shot_multiplier.2.1 c8Shot1.2 false dummyRound,
    c8_saw_one_shot_multiplier.2.2 c8Game true dummyRound⟩

/-- Full 15×15 board with no run of 3 or more anywhere (the value of cell
`(i, j)` depends on `(i + 2*j) % 4`), except that cell `(0, 0)` — whose
pattern value is a player-1 mark — is still empty. -/
def c5Board : List (List Nat) :=
  (List.range 15).map (fun i => (List.range 15).map (fun j =>
    if i = 0 ∧ j = 0 then 0 else if (i + 2 * j) % 4 < 2 then 1 else 2))

/-- Gomoku position one move before a full-board draw: 112 marks each side,
player 1 to move at `A1`. -/
def c5Game : Gomoku :=
  { Gomoku.init "p1" "p2" 15 with board := c5Board, moves_count := 224 }

/-- C5 counterexample: the move `A1` on `c5Game` leaves the mover with runs
of length at most 4 (in fact 2) in every direction, yet `make_move`
returns `DRAW`, not `CONTINUE`, because it fills the board — refuting the
claim that a move with at most 4 contiguous cells in every direction
always returns Continue. -/
theorem c5_full_board_draw_counterexample :
    (∀ d ∈ Gomoku.directions,
      (Gomoku.positionsFor (Gomoku.place c5Game "p1" 0 0).board c5Game.board_size
        (c5Game.playerNumber "p1") 0 0 d.1 d.2).length ≤ 4) ∧
    ((c5Game.make_move "p1" "A1").toOption.map (fun p => p.1.result)
      = some .DRAW) := by
  constructor
  · decide
  · rfl

/-- Reversing a map over `List.range` re-indexes from the other end. -/
theorem reverse_range_map {β : Type} (f : Nat → β) :
    ∀ n : Nat, ((List.range n).map f).reverse = (List.range n).map (fun k => f (n - 1 - k)) := by
  intro n
  induction n with
  | zero => rfl
  | succ m ih =>
    conv_lhs => rw [List.range_succ]
    rw [List.map_append, List.reverse_append, ih]
    conv_rhs => rw [List.range_succ_eq_map]
    simp only [List.map_cons, List.map_nil, List.reverse_cons, List.reverse_nil,
      List.nil_append, List.singleton_append, List.map_map]
    congr 1
    apply List.map_congr_left
    intro k hk
    simp only [Function.comp]
    congr 1
    rw [List.mem_range] at hk
    omega

/-- One `while` loop of `_get_winning_line` collects an arithmetic
progression of cells: consecutive board positions along its direction. -/
theorem collect_eq_range_map (board : List (List Nat)) (sz pn : Nat) (dr dc : Int) :
    ∀ (fuel : Nat) (r c : Int),
      Gomoku.collect board sz pn dr dc r c fuel
        = (List.range (Gomoku.collect board sz pn dr dc r c fuel).length).map
            (fun (k : Nat) => (r + (k : Int) * dr, c + (k : Int) * dc)) := by
  intro fuel
  induction fuel with
  | zero => intro r c; rfl
  | succ n ih =>
    intro r c
    by_cases h : (0 ≤ r ∧ r < (sz : Int) ∧ 0 ≤ c ∧ c < (sz : Int) ∧
        getCell board r.toNat c.toNat = pn)
    · rw [show Gomoku.collect board sz pn dr dc r c (n + 1)
          = (r, c) :: Gomoku.collect board sz pn dr dc (r + dr) (c + dc) n from by
        simp [Gomoku.collect, h]]
      rw [List.length_cons, List.range_succ_eq_map, List.map_cons, List.map_map]
      congr 1
      · simp
      · rw [ih (r + dr) (c + dc)]
        simp only [List.length_map, List.length_range]
        apply List.map_congr_left
        intro k hk
        simp only [Function.comp, Prod.mk.injEq]
        push_cast
        constructor <;> ring
    · rw [show Gomoku.collect board sz pn dr dc r c (n + 1) = [] from by
        simp [Gomoku.collect, h]]
      rfl

/-- Every cell collected by a `_get_winning_line` loop lies on the board
and carries the mover's mark. -/
theorem collect_mem (board : List (List Nat)) (sz pn : Nat) (dr dc : Int) :
    ∀ (fuel : Nat) (r c : Int) (q : Int × Int),
      q ∈ Gomoku.collect board sz pn dr dc r c fuel →
      (0 ≤ q.1 ∧ q.1 < (sz : Int) ∧ 0 ≤ q.2 ∧ q.2 < (sz : Int) ∧
        getCell board q.1.toNat q.2.toNat = pn) := by
  intro fuel
  induction fuel with
  | zero => intro r c q hq; simp [Gomoku.collect] at hq
  | succ n ih =>
    intro r c q hq
    by_cases h : (0 ≤ r ∧ r < (sz : Int) ∧ 0 ≤ c ∧ c < (sz : Int) ∧
        getCell board r.toNat c.toNat = pn)
    · rw [show Gomoku.collect board sz pn dr dc r c (n + 1)
          = (r, c) :: Gomoku.collect board sz pn dr dc (r + dr) (c + dc) n from by
        simp [Gomoku.collect, h]] at hq
      rcases List.mem_cons.mp hq with rfl | hq'
      · exact h
      · exact ih (r + dr) (c + dc) q hq'
    · rw [show Gomoku.collect board sz pn dr dc r c (n + 1) = [] from by
        simp [Gomoku.collect, h]] at hq
      simp at hq

/-- The first-match loop of `_get_winning_line`, specialised: optional
results of a guarded shape reduce `findSome?` to `find?`. -/
theorem findSome?_guard_eq {α β : Type} (p : α → Prop) [DecidablePred p] (h : α → β) :
    ∀ l : List α,
      (l.findSome? (fun a => if p a then some (h a) else none))
        = (l.find? (fun a => decide (p a))).map h := by
  intro l
  induction l with
  | nil => rfl
  | cons a t ih =>
    by_cases hp : p a
    · simp [List.findSome?_cons, List.find?_cons, hp]
    · simp [List.findSome?_cons, List.find?_cons, hp, ih]

/-- Mirror-level characterisation of `_get_winning_line`: it returns the
first 5 cells of the run for the FIRST direction, in scan order, whose run
through the played cell has length at least 5 (and nothing otherwise). -/
theorem get_winning_line_char (g : Gomoku) (row col : Nat) :
    g.get_winning_line row col
      = (Gomoku.directions.find? (fun d =>
          decide ((Gomoku.positionsFor g.board g.board_size (getCell g.board row col)
            (row : Int) (col : Int) d.1 d.2).length ≥ 5))).map
        (fun d => (Gomoku.positionsFor g.board g.board_size (getCell g.board row col)
          (row : Int) (col : Int) d.1 d.2).take 5) :=
  findSome?_guard_eq _ _ _

/-- Updating index `i` and reading it back yields the new value (list-level
helper for `board[r][c] = v`). -/
theorem list_get?_set_self {α : Type} :
    ∀ (l : List α) (i : Nat) (a : α), i < l.length → (l.set i a).get? i = some a := by
  intro l
  induction l with
  | nil => intro i a h; simp at h
  | cons x t ih =>
    intro i a h
    cases i with
    | zero => rfl
    | succ j => exact ih j a (by simpa using h)

/-- Board write/read round-trip at the written cell. -/
theorem getCell_setCell (board : List (List Nat)) (r c v : Nat)
    (hr : r < board.length) (hc : c < ((board.get? r).getD []).length) :
    getCell (setCell board r c v) r c = v := by
  unfold getCell setCell
  rw [list_get?_set_self board r _ hr]
  simp only [Option.getD_some]
  rw [list_get?_set_self _ c v hc]
  rfl

/-- Splitting a map over `List.range` at an index. -/
theorem range_add_map {β : Type} (f : Nat → β) (a : Nat) :
    ∀ b : Nat, (List.range (a + b)).map f
      = (List.range a).map f ++ (List.range b).map (fun k => f (a + k)) := by
  intro b
  induction b with
  | zero => simp
  | succ m ih =>
    rw [show a + (m + 1) = (a + m) + 1 from rfl, List.range_succ, List.map_append, ih,
      List.range_succ, List.map_append, List.append_assoc]
    simp

/-- The run `_get_winning_line` builds for one direction is an arithmetic
progression of board cells through the played cell `(r, c)`: `b` backward
cells, the cell itself, and `f` forward cells, listed in scan order. -/
theorem positionsFor_progression (board : List (List Nat)) (sz pn : Nat) (r c dr dc : Int) :
    ∃ b f, (Gomoku.positionsFor board sz pn r c dr dc).length = b + 1 + f ∧
      Gomoku.positionsFor board sz pn r c dr dc
        = (List.range (b + 1 + f)).map
            (fun (k : Nat) => (r + ((k : Int) - (b : Int)) * dr,
              c + ((k : Int) - (b : Int)) * dc)) := by
  refine ⟨(Gomoku.collect board sz pn (-dr) (-dc) (r - dr) (c - dc) sz).length,
    (Gomoku.collect board sz pn dr dc (r + dr) (c + dc) sz).length, ?_, ?_⟩
  · simp [Gomoku.positionsFor]
    omega
  · conv_lhs => rw [Gomoku.positionsFor,
      collect_eq_range_map board sz pn (-dr) (-dc) sz (r - dr) (c - dc),
      collect_eq_range_map board sz pn dr dc sz (r + dr) (c + dc)]
    rw [reverse_range_map]
    rw [show (Gomoku.collect board sz pn (-dr) (-dc) (r - dr) (c - dc) sz).length + 1 +
        (Gomoku.collect board sz pn dr dc (r + dr) (c + dc) sz).length
      = (Gomoku.collect board sz pn (-dr) (-dc) (r - dr) (c - dc) sz).length +
        (1 + (Gomoku.collect board sz pn dr dc (r + dr) (c + dc) sz).length) from by omega]
    rw [range_add_map, range_add_map]
    rw [show List.range 1 = [0] from by decide]
    simp only [List.map_cons, List.map_nil, List.singleton_append]
    congr 1
    · apply List.map_congr_left
      intro k hk
      rw [List.mem_range] at hk
      have hcast : (((Gomoku.collect board sz pn (-dr) (-dc) (r - dr) (c - dc) sz).length
          - 1 - k : Nat) : Int)
        = ((Gomoku.collect board sz pn (-dr) (-dc) (r - dr) (c - dc) sz).length : Int)
          - 1 - (k : Int) := by omega
      simp only [Prod.mk.injEq, hcast]
      constructor <;> ring
    · congr 1
      · simp only [Prod.mk.injEq]
        push_cast
        constructor <;> ring
      · apply List.map_congr_left
        intro k hk
        simp only [Prod.mk.injEq]
        push_cast
        constructor <;> ring

/-- C5 (amended): five-in-a-row detection on a move accepted by the guards
(game not over, mover's turn, parseable and valid coordinates) on a
well-formed `board_size` × `board_size` board.  (1) If the placed mark's
run through the played cell reaches length ≥ 5 in SOME direction (so in
particular exactly 5), the move returns `WIN` for the mover and finishes
the game — runs longer than 5 still count.  (2) If every direction's run
has length ≤ 4 the move never returns `WIN`: it returns `CONTINUE`, except
that a move filling the board returns `DRAW`.  (3) The reported winning
line is `positions[:5]` — the first 5 cells, in scan order, of the run of
the first direction (in the fixed direction scan order) whose run reaches
5.  (4) Each direction's run is a contiguous arithmetic progression of
board cells through the played cell, all carrying the mover's mark. -/
theorem c5_five_in_a_row_detection (g : Gomoku) (pid mv : String) (row col : Int)
    (hb1 : g.board.length = g.board_size)
    (hb2 : ∀ rw ∈ g.board, List.length rw = g.board_size)
    (h1 : g.is_finished = false)
    (h2 : g.is_player_turn pid = true)
    (h3 : g.parse_move mv = .ok (some (row, col)))
    (h4 : g.is_valid_move (row, col) = true) :
    ((∃ d ∈ Gomoku.directions,
        5 ≤ (Gomoku.positionsFor (g.place pid row col).board g.board_size
          (g.playerNumber pid) row col d.1 d.2).length) →
      ∃ r g', g.make_move pid mv = .ok (r, g') ∧ r.result = .WIN ∧
        r.winner = some pid ∧ g'.is_finished = true ∧ g'.winner = some pid) ∧
    ((∀ d ∈ Gomoku.directions,
        (Gomoku.positionsFor (g.place pid row col).board g.board_size
          (g.playerNumber pid) row col d.1 d.2).length ≤ 4) →
      ∃ r g', g.make_move pid mv = .ok (r, g') ∧ r.result ≠ .WIN ∧ r.winner = none ∧
        r.result = (if (g.place pid row col).is_board_full then GameResult.DRAW
          else GameResult.CONTINUE)) ∧
    ((g.place pid row col).get_winning_line row.toNat col.toNat
      = (Gomoku.directions.find? (fun d =>
          decide ((Gomoku.positionsFor (g.place pid row col).board g.board_size
            (g.playerNumber pid) row col d.1 d.2).length ≥ 5))).map
        (fun d => (Gomoku.positionsFor (g.place pid row col).board g.board_size
          (g.playerNumber pid) row col d.1 d.2).take 5)) ∧
    (∀ d ∈ Gomoku.directions, ∃ b f,
      (Gomoku.positionsFor (g.place pid row col).board g.board_size
        (g.playerNumber pid) row col d.1 d.2).length = b + 1 + f ∧
      Gomoku.positionsFor (g.place pid row col).board g.board_size
        (g.playerNumber pid) row col d.1 d.2
        = (List.range (b + 1 + f)).map (fun (k : Nat) =>
            (row + ((k : Int) - (b : Int)) * d.1, col + ((k : Int) - (b : Int)) * d.2)) ∧
      ∀ q ∈ Gomoku.positionsFor (g.place pid row col).board g.board_size
          (g.playerNumber pid) row col d.1 d.2,
        0 ≤ q.1 ∧ q.1 < (g.board_size : Int) ∧ 0 ≤ q.2 ∧ q.2 < (g.board_size : Int) ∧
          getCell (g.place pid row col).board q.1.toNat q.2.toNat
            = g.playerNumber pid) := by
  have hbounds : ¬(row < 0 ∨ row ≥ (g.board_size : Int) ∨ col < 0 ∨
      col ≥ (g.board_size : Int)) := by
    intro hor
    rw [Gomoku.is_valid_move] at h4
    have : (row < 0 || row ≥ (g.board_size : Int) || col < 0 ||
        col ≥ (g.board_size : Int)) = true := by
      simp only [Bool.or_eq_true, decide_eq_true_eq]
      tauto
    simp [this] at h4
  push_neg at hbounds
  obtain ⟨hrow0, hrowlt, hcol0, hcollt⟩ := hbounds
  have hrl : row.toNat < g.board.length := by rw [hb1]; omega
  have hget : g.board.get? row.toNat = some (g.board.get ⟨row.toNat, hrl⟩) :=
    List.get?_eq_get hrl
  have hrowlen : (g.board.get ⟨row.toNat, hrl⟩).length = g.board_size :=
    hb2 _ (g.board.get_mem _ _)
  have hc2 : col.toNat < ((g.board.get? row.toNat).getD []).length := by
    rw [hget]
    simp only [Option.getD_some]
    omega
  have hpn : getCell (g.place pid row col).board row.toNat col.toNat
      = g.playerNumber pid :=
    getCell_setCell g.board row.toNat col.toNat (g.playerNumber pid) hrl hc2
  have hcr : ((row.toNat : Nat) : Int) = row := Int.toNat_of_nonneg hrow0
  have hcc : ((col.toNat : Nat) : Int) = col := Int.toNat_of_nonneg hcol0
  have hline := get_winning_line_char (g.place pid row col) row.toNat col.toNat
  rw [show (g.place pid row col).board_size = g.board_size from rfl, hpn, hcr, hcc]
    at hline
  have hwin_iff : ((g.place pid row col).check_winner row.toNat col.toNat = true) ↔
      (∃ d ∈ Gomoku.directions,
        5 ≤ (Gomoku.positionsFor (g.place pid row col).board g.board_size
          (g.playerNumber pid) row col d.1 d.2).length) := by
    rw [Gomoku.check_winner, hline]
    simp [List.find?_isSome, ge_iff_le]
  have hturn' : (!g.is_player_turn pid) = false := by rw [h2]; rfl
  have hvalid' : (!g.is_valid_move (row, col)) = false := by rw [h4]; rfl
  refine ⟨?_, ?_, hline, ?_⟩
  · intro hex
    have hw : (g.place pid row col).check_winner row.toNat col.toNat = true :=
      hwin_iff.mpr hex
    simp only [Gomoku.make_move, h1, h3, hturn', hvalid', Bool.false_eq_true, if_false,
      hw, if_true]
    exact ⟨_, _, rfl, rfl, rfl, rfl, rfl⟩
  · intro hle4
    have hw : (g.place pid row col).check_winner row.toNat col.toNat = false := by
      rcases hwb : (g.place pid row col).check_winner row.toNat col.toNat with _ | _
      · rfl
      · exfalso
        obtain ⟨d, hd, h5⟩ := hwin_iff.mp hwb
        have := hle4 d hd
        omega
    simp only [Gomoku.make_move, h1, h3, hturn', hvalid', Bool.false_eq_true, if_false,
      hw]
    by_cases hf : (g.place pid row col).is_board_full = true
    · simp only [hf, if_true]
      exact ⟨_, _, rfl, by simp, rfl, rfl⟩
    · have hf' : (g.place pid row col).is_board_full = false := by
        rcases hfb : (g.place pid row col).is_board_full with _ | _
        · rfl
        · exact absurd hfb hf
      simp only [hf', Bool.false_eq_true, if_false]
      exact ⟨_, _, rfl, by simp, rfl, rfl⟩
  · intro d hd
    obtain ⟨b, f, hlen, hprog⟩ := positionsFor_progression (g.place pid row col).board
      g.board_size (g.playerNumber pid) row col d.1 d.2
    refine ⟨b, f, hlen, hprog, ?_⟩
    intro q hq
    rw [Gomoku.positionsFor] at hq
    rcases List.mem_append.mp hq with hq1 | hq2
    · exact collect_mem (g.place pid row col).board g.board_size (g.playerNumber pid)
        (-d.1) (-d.2) g.board_size (row - d.1) (col - d.2) q
        (List.mem_reverse.mp hq1)
    · rcases List.mem_cons.mp hq2 with rfl | hq3
      · exact ⟨hrow0, by omega, hcol0, by omega, hpn⟩
      · exact collect_mem (g.place pid row col).board g.board_size (g.playerNumber pid)
          d.1 d.2 g.board_size (row + d.1) (col + d.2) q hq3

/-- 15×15 board with player-1 marks on `B1`..`E1` and `A1` free. -/
def c5WitnessBoard : List (List Nat) :=
  setCell (setCell (setCell (setCell (Gomoku.init "p1" "p2" 15).board 0 1 1) 0 2 1)
    0 3 1) 0 4 1

/-- Gomoku position where `A1` completes a horizontal five for player 1. -/
def c5WitnessGame : Gomoku :=
  { Gomoku.init "p1" "p2" 15 with board := c5WitnessBoard, moves_count := 8 }

theorem c5_five_in_a_row_detection_witness :
    ∃ r g', c5WitnessGame.make_move "p1" "A1" = .ok (r, g') ∧
      r.result = GameResult.WIN ∧ r.winner = some "p1" ∧
      g'.is_finished = true ∧ g'.winner = some "p1" :=
  (c5_five_in_a_row_detection c5WitnessGame "p1" "A1" 0 0 (by decide) (by decide)
    rfl (by decide) (by rfl) (by decide)).1 (by decide)

/-- Successor state of `create_game`: the new registry on success, the old
one when the call raises (the source raises before any mutation). -/
def createdState (m : GameManager) (gt p1 p2 grp : String) (bid ts : Int) : GameManager :=
  match m.create_game gt p1 p2 grp bid ts with
  | .ok p => p.2
  | .error _ => m

/-- Registry after creating a game for player `"y"` in group `"g_x"`
(game id `"tictactoe_g_x_y_100"`). -/
def c1m1 : GameManager := createdState emptyManager "tictactoe" "y" "AI" "g_x" 1 100

/-- Registry after additionally creating a game for player `"x_y"` in group
`"g"` at the same timestamp: `generate_game_id` concatenates
`type_group_player_timestamp`, so this SECOND game gets the SAME id
`"tictactoe_g_x_y_100"` and silently overwrites the first session in the
primary map while both players' index entries point at the shared id. -/
def c1m2 : GameManager := createdState c1m1 "tictactoe" "x_y" "AI" "g" 1 100

/-- Registry after removing the shared game id: the stored session (the
second one) is purged, and player `"y"` plus group `"g_x"` are left with
dangling references. -/
def c1m3 : GameManager := (GameManager.remove_game c1m2 "tictactoe_g_x_y_100").2

/-- C1 counterexample: with colliding generated ids (same game type and
timestamp, group `"g_x"` + player `"y"` versus group `"g"` + player
`"x_y"`), a create/create/remove sequence leaves the user index mapping
`"y"` to a game id ABSENT from the primary map, and the group index of
`"g_x"` still holding that id — orphans in both indices, refuting the
unconditional registry-consistency claim. -/
theorem c1_id_collision_orphan :
    c1m3.user_games "y" = some "tictactoe_g_x_y_100" ∧
    c1m3.active_games "tictactoe_g_x_y_100" = none ∧
    c1m3.group_games "g_x" = some ["tictactoe_g_x_y_100"] := by
  refine ⟨rfl, rfl, rfl⟩

/-- Consistency of the user index with the primary session map: every entry
points to a live session containing that user, and every non-AI player of a
live session is indexed to that session's id. -/
def UserOk (active : String → Option GameSession) (users : String → Option String) : Prop :=
  (∀ u gid, users u = some gid →
    ∃ s, active gid = some s ∧
      (u = s.player1_id ∨ (u = s.player2_id ∧ s.player2_id ≠ "AI"))) ∧
  (∀ gid s, active gid = some s →
    users s.player1_id = some gid ∧
    (s.player2_id ≠ "AI" → users s.player2_id = some gid))

/-- Consistency of one list-valued index (group or bot) with the primary
session map: stored lists are duplicate-free and list exactly the live
sessions whose projection matches the key. -/
def IndexOk {κ : Type} [DecidableEq κ] (active : String → Option GameSession)
    (idx : κ → Option (List String)) (proj : GameSession → κ) : Prop :=
  (∀ k l, idx k = some l → l.Nodup ∧ ∀ gid ∈ l, ∃ s, active gid = some s ∧ proj s = k) ∧
  (∀ gid s, active gid = some s → ∃ l, idx (proj s) = some l ∧ gid ∈ l)

/-- Full registry invariant. -/
def RegistryInv (m : GameManager) : Prop :=
  UserOk m.active_games m.user_games ∧
  IndexOk m.active_games m.group_games (fun s => s.group_id) ∧
  IndexOk m.active_games m.bot_games (fun s => s.bot_id)

/-- Registry states reachable from the empty manager by `create_game` and
`remove_game` calls, under the amendment's proviso: a create call either
fails, or generates a game id not currently present in the primary map. -/
inductive Reachable : GameManager → Prop where
  | empty : Reachable emptyManager
  | create (m : GameManager) (gt p1 p2 grp : String) (bid ts : Int)
      (hm : Reachable m)
      (hfresh : m.active_games (GameManager.generate_game_id gt p1 grp ts) = none ∨
        ∃ e, m.create_game gt p1 p2 grp bid ts = .error e) :
      Reachable (createdState m gt p1 p2 grp bid ts)
  | remove (m : GameManager) (gid : String) (hm : Reachable m) :
      Reachable (GameManager.remove_game m gid).2

/-- A successful `create_game` presupposes that its guards passed. -/
theorem create_ok_inversion (m : GameManager) (gt p1 p2 grp : String) (bid ts : Int)
    (out : GameSession × GameManager)
    (h : m.create_game gt p1 p2 grp bid ts = .ok out) :
    m.user_games p1 = none ∧ (p2 ≠ "AI" → m.user_games p2 = none) := by
  rw [GameManager.create_game] at h
  by_cases h1 : (m.user_games p1).isSome = true
  · simp [h1] at h
  · by_cases h2 : p2 ≠ "AI" ∧ (m.user_games p2).isSome = true
    · simp [h1, h2] at h
    · refine ⟨Option.not_isSome_iff_eq_none.mp h1, ?_⟩
      intro hAI
      rcases hp : m.user_games p2 with _ | v
      · rfl
      · exact absurd ⟨hAI, by rw [hp]; rfl⟩ h2

/-- Pointwise description of the registry after a successful `create_game`. -/
theorem create_ok_spec (m : GameManager) (gt p1 p2 grp : String) (bid ts : Int)
    (hp1 : m.user_games p1 = none)
    (hp2 : p2 ≠ "AI" → m.user_games p2 = none) :
    (∀ x, (createdState m gt p1 p2 grp bid ts).active_games x
      = if x = GameManager.generate_game_id gt p1 grp ts then
          some (GameSession.init (GameManager.generate_game_id gt p1 grp ts)
            gt p1 p2 grp bid ts)
        else m.active_games x) ∧
    (∀ u, (createdState m gt p1 p2 grp bid ts).user_games u
      = if p2 ≠ "AI" ∧ u = p2 then some (GameManager.generate_game_id gt p1 grp ts)
        else if u = p1 then some (GameManager.generate_game_id gt p1 grp ts)
        else m.user_games u) ∧
    (∀ gr, (createdState m gt p1 p2 grp bid ts).group_games gr
      = if gr = grp then
          some (((m.group_games grp).getD []) ++
            [GameManager.generate_game_id gt p1 grp ts])
        else m.group_games gr) ∧
    (∀ b, (createdState m gt p1 p2 grp bid ts).bot_games b
      = if b = bid then
          some (((m.bot_games bid).getD []) ++
            [GameManager.generate_game_id gt p1 grp ts])
        else m.bot_games b) := by
  by_cases hAI : p2 = "AI"
  · simp only [createdState, GameManager.create_game, hp1, Option.isSome_none,
      Bool.false_eq_true, if_false, hAI, ne_eq, not_true_eq_false, false_and]
    refine ⟨fun x => by simp [fmInsert], fun u => by simp [fmInsert], ?_, ?_⟩
    · intro gr; simp [fmInsert]
    · intro b; simp [fmInsert]
  · have hp2' := hp2 hAI
    simp only [createdState, GameManager.create_game, hp1, hp2', Option.isSome_none,
      Bool.false_eq_true, if_false, ne_eq, hAI, not_false_eq_true, true_and, and_false]
    refine ⟨fun x => by simp [fmInsert], ?_, ?_, ?_⟩
    · intro u
      by_cases hu2 : u = p2 <;> by_cases hu1 : u = p1 <;>
        simp [fmInsert, hu1, hu2, hAI]
    · intro gr; simp [fmInsert]
    · intro b; simp [fmInsert]

/-- Pointwise description of the registry after `remove_game` on a live
session, given the index facts the invariant supplies. -/
theorem remove_spec (m : GameManager) (gid : String) (s : GameSession)
    (lg lb : List String)
    (hact : m.active_games gid = some s)
    (hsp1 : m.user_games s.player1_id = some gid)
    (hsp2 : s.player2_id ≠ "AI" → m.user_games s.player2_id = some gid)
    (hlg : m.group_games s.group_id = some lg) (hgl : gid ∈ lg)
    (hlb : m.bot_games s.bot_id = some lb) (hbl : gid ∈ lb) :
    (GameManager.remove_game m gid).1 = true ∧
    (∀ x, (GameManager.remove_game m gid).2.active_games x
      = if x = gid then none else m.active_games x) ∧
    (∀ u, (GameManager.remove_game m gid).2.user_games u
      = if u = s.player1_id ∨ (s.player2_id ≠ "AI" ∧ u = s.player2_id) then none
        else m.user_games u) ∧
    (∀ gr, (GameManager.remove_game m gid).2.group_games gr
      = if gr = s.group_id then
          (if lg.erase gid = [] then none else some (lg.erase gid))
        else m.group_games gr) ∧
    (∀ b, (GameManager.remove_game m gid).2.bot_games b
      = if b = s.bot_id then
          (if lb.erase gid = [] then none else some (lb.erase gid))
        else m.bot_games b) := by
  simp only [GameManager.remove_game, hact]
  refine ⟨trivial, fun x => by simp [fmErase], ?_, ?_, ?_⟩
  · intro u
    rw [hsp1]
    by_cases hAI : s.player2_id = "AI"
    · by_cases h1 : u = s.player1_id <;> simp [fmErase, hAI, h1]
    · by_cases hpp : s.player2_id = s.player1_id
      · by_cases h1 : u = s.player1_id <;> simp [fmErase, hAI, hpp, h1]
      · have h2 := hsp2 hAI
        by_cases h1 : u = s.player2_id <;> by_cases h0 : u = s.player1_id <;>
          simp [fmErase, hAI, hpp, h0, h1, h2]
  · intro gr
    rw [hlg]
    simp only [hgl, if_true]
    by_cases he : lg.erase gid = [] <;>
      by_cases hg : gr = s.group_id <;>
        simp [he, hg, fmErase, fmInsert]
  · intro b
    rw [hlb]
    simp only [hbl, if_true]
    by_cases he : lb.erase gid = [] <;>
      by_cases hg : b = s.bot_id <;>
        simp [he, hg, fmErase, fmInsert]

/-- An index stays consistent when a fresh session is registered and its id
appended to the list at the session's key. -/
theorem IndexOk_create {κ : Type} [DecidableEq κ]
    (active active' : String → Option GameSession)
    (idx idx' : κ → Option (List String)) (proj : GameSession → κ)
    (gid : String) (s0 : GameSession)
    (h : IndexOk active idx proj) (hfr : active gid = none)
    (ha : ∀ x, active' x = if x = gid then some s0 else active x)
    (hi : ∀ k, idx' k = if k = proj s0 then
        some (((idx (proj s0)).getD []) ++ [gid]) else idx k) :
    IndexOk active' idx' proj := by
  obtain ⟨h1, h2⟩ := h
  have hnotmem : ∀ l, idx (proj s0) = some l → gid ∉ l := by
    intro l hl hmem
    obtain ⟨s', hs', _⟩ := (h1 _ l hl).2 gid hmem
    rw [hfr] at hs'
    cases hs'
  constructor
  · intro k l hl
    rw [hi] at hl
    by_cases hk : k = proj s0
    · rw [if_pos hk] at hl
      injection hl with hl
      subst hl
      rcases hold : idx (proj s0) with _ | lg
      · simp only [hold, Option.getD_none, List.nil_append]
        refine ⟨List.nodup_singleton _, ?_⟩
        intro x hx
        rcases List.mem_singleton.mp hx with rfl
        exact ⟨s0, by rw [ha]; simp, hk.symm⟩
      · obtain ⟨hnd, hmem⟩ := h1 _ lg hold
        simp only [hold, Option.getD_some]
        constructor
        · rw [List.nodup_append]
          exact ⟨hnd, List.nodup_singleton _,
            fun x hx hx1 => (hnotmem lg hold) ((List.mem_singleton.mp hx1) ▸ hx)⟩
        · intro x hx
          rcases List.mem_append.mp hx with hx1 | hx2
          · obtain ⟨s', hs', hproj⟩ := hmem x hx1
            have hne : x ≠ gid := by
              intro hxe; rw [hxe, hfr] at hs'; cases hs'
            exact ⟨s', by rw [ha, if_neg hne]; exact hs', hproj.trans hk.symm⟩
          · rcases List.mem_singleton.mp hx2 with rfl
            exact ⟨s0, by rw [ha]; simp, hk.symm⟩
    · rw [if_neg hk] at hl
      obtain ⟨hnd, hmem⟩ := h1 k l hl
      refine ⟨hnd, ?_⟩
      intro x hx
      obtain ⟨s', hs', hproj⟩ := hmem x hx
      have hne : x ≠ gid := by
        intro hxe; rw [hxe, hfr] at hs'; cases hs'
      exact ⟨s', by rw [ha, if_neg hne]; exact hs', hproj⟩
  · intro gidx sx hx
    rw [ha] at hx
    by_cases hg : gidx = gid
    · rw [if_pos hg] at hx
      injection hx with hx
      subst hx
      refine ⟨((idx (proj s0)).getD []) ++ [gid], by rw [hi, if_pos rfl], ?_⟩
      exact List.mem_append.mpr (Or.inr (List.mem_singleton.mpr hg))
    · rw [if_neg hg] at hx
      obtain ⟨l2, hl2, hm2⟩ := h2 gidx sx hx
      by_cases hk : proj sx = proj s0
      · refine ⟨((idx (proj s0)).getD []) ++ [gid], by rw [hi, if_pos hk], ?_⟩
        rw [← hk, hl2]
        exact List.mem_append.mpr (Or.inl hm2)
      · exact ⟨l2, by rw [hi, if_neg hk]; exact hl2, hm2⟩

/-- An index stays consistent when a live session is unregistered and its
id removed from the list at the session's key (key dropped when the list
empties). -/
theorem IndexOk_remove {κ : Type} [DecidableEq κ]
    (active active' : String → Option GameSession)
    (idx idx' : κ → Option (List String)) (proj : GameSession → κ)
    (gid : String) (s : GameSession) (lg : List String)
    (h : IndexOk active idx proj)
    (hact : active gid = some s)
    (hlg : idx (proj s) = some lg)
    (ha : ∀ x, active' x = if x = gid then none else active x)
    (hi : ∀ k, idx' k = if k = proj s then
        (if lg.erase gid = [] then none else some (lg.erase gid)) else idx k) :
    IndexOk active' idx' proj := by
  obtain ⟨h1, h2⟩ := h
  obtain ⟨hndg, hmemg⟩ := h1 _ lg hlg
  constructor
  · intro k l hl
    rw [hi] at hl
    by_cases hk : k = proj s
    · rw [if_pos hk] at hl
      by_cases he : lg.erase gid = []
      · rw [if_pos he] at hl; cases hl
      · rw [if_neg he] at hl
        injection hl with hl
        subst hl
        refine ⟨hndg.erase gid, ?_⟩
        intro x hx
        have hxne : x ≠ gid := ((List.Nodup.mem_erase_iff hndg).mp hx).1
        have hxlg : x ∈ lg := ((List.Nodup.mem_erase_iff hndg).mp hx).2
        obtain ⟨s', hs', hproj⟩ := hmemg x hxlg
        exact ⟨s', by rw [ha, if_neg hxne]; exact hs', hproj.trans hk.symm⟩
    · rw [if_neg hk] at hl
      obtain ⟨hnd, hmem⟩ := h1 k l hl
      refine ⟨hnd, ?_⟩
      intro x hx
      obtain ⟨s', hs', hproj⟩ := hmem x hx
      have hxne : x ≠ gid := by
        intro hxe
        subst hxe
        rw [hact] at hs'
        injection hs' with hs'
        refine hk ?_
        rw [← hproj, hs']
      exact ⟨s', by rw [ha, if_neg hxne]; exact hs', hproj⟩
  · intro gidx sx hx
    rw [ha] at hx
    by_cases hg : gidx = gid
    · rw [if_pos hg] at hx; cases hx
    · rw [if_neg hg] at hx
      obtain ⟨l2, hl2, hm2⟩ := h2 gidx sx hx
      by_cases hk : proj sx = proj s
      · have hl2' : l2 = lg := by
          rw [hk, hlg] at hl2
          exact (Option.some_inj.mp hl2).symm
        subst hl2'
        have hmem' : gidx ∈ l2.erase gid := (List.mem_erase_of_ne hg).mpr hm2
        have hne : l2.erase gid ≠ [] := by
          intro he; rw [he] at hmem'; cases hmem'
        exact ⟨l2.erase gid, by rw [hi, if_pos hk, if_neg hne], hmem'⟩
      · exact ⟨l2, by rw [hi, if_neg hk]; exact hl2, hm2⟩

/-- The user index stays consistent when a fresh session for players
`p1`/`p2` (neither indexed yet) is registered. -/
theorem UserOk_create (active active' : String → Option GameSession)
    (users users' : String → Option String) (p1 p2 gid : String) (s0 : GameSession)
    (h : UserOk active users)
    (hp1 : users p1 = none) (hp2 : p2 ≠ "AI" → users p2 = none)
    (hfr : active gid = none)
    (hs1 : s0.player1_id = p1) (hs2 : s0.player2_id = p2)
    (ha : ∀ x, active' x = if x = gid then some s0 else active x)
    (hu : ∀ u, users' u = if p2 ≠ "AI" ∧ u = p2 then some gid
        else if u = p1 then some gid else users u) :
    UserOk active' users' := by
  subst hs1
  subst hs2
  obtain ⟨h1, h2⟩ := h
  constructor
  · intro u g' hg'
    rw [hu] at hg'
    by_cases c1 : s0.player2_id ≠ "AI" ∧ u = s0.player2_id
    · rw [if_pos c1] at hg'
      injection hg' with hg'
      subst hg'
      exact ⟨s0, by rw [ha, if_pos rfl], Or.inr ⟨c1.2, c1.1⟩⟩
    · rw [if_neg c1] at hg'
      by_cases c2 : u = s0.player1_id
      · rw [if_pos c2] at hg'
        injection hg' with hg'
        subst hg'
        exact ⟨s0, by rw [ha, if_pos rfl], Or.inl c2⟩
      · rw [if_neg c2] at hg'
        obtain ⟨s', hs', hm'⟩ := h1 u g' hg'
        have hne : g' ≠ gid := by
          intro he; rw [he, hfr] at hs'; cases hs'
        exact ⟨s', by rw [ha, if_neg hne]; exact hs', hm'⟩
  · intro gx sx hx
    rw [ha] at hx
    by_cases hg : gx = gid
    · rw [if_pos hg] at hx
      injection hx with hx
      subst hx
      constructor
      · rw [hu, hg]
        by_cases cc : s0.player2_id ≠ "AI" ∧ s0.player1_id = s0.player2_id
        · rw [if_pos cc]
        · rw [if_neg cc, if_pos rfl]
      · intro hAI
        rw [hu, hg, if_pos ⟨hAI, rfl⟩]
    · rw [if_neg hg] at hx
      obtain ⟨hx1, hx2⟩ := h2 gx sx hx
      constructor
      · rw [hu]
        have d1 : ¬(s0.player2_id ≠ "AI" ∧ sx.player1_id = s0.player2_id) := by
          rintro ⟨hAI, he⟩
          rw [he, hp2 hAI] at hx1
          cases hx1
        have d2 : ¬(sx.player1_id = s0.player1_id) := by
          intro he; rw [he, hp1] at hx1; cases hx1
        rw [if_neg d1, if_neg d2]
        exact hx1
      · intro hAI
        have hx2' := hx2 hAI
        have d1 : ¬(s0.player2_id ≠ "AI" ∧ sx.player2_id = s0.player2_id) := by
          rintro ⟨hAI2, he⟩
          rw [he, hp2 hAI2] at hx2'
          cases hx2'
        have d2 : ¬(sx.player2_id = s0.player1_id) := by
          intro he; rw [he, hp1] at hx2'; cases hx2'
        rw [hu, if_neg d1, if_neg d2]
        exact hx2'

/-- The user index stays consistent when a live session is unregistered and
both of its (non-AI) players dropped from the index. -/
theorem UserOk_remove (active active' : String → Option GameSession)
    (users users' : String → Option String) (gid : String) (s : GameSession)
    (h : UserOk active users) (hact : active gid = some s)
    (ha : ∀ x, active' x = if x = gid then none else active x)
    (hu : ∀ u, users' u = if u = s.player1_id ∨ (s.player2_id ≠ "AI" ∧ u = s.player2_id)
        then none else users u) :
    UserOk active' users' := by
  obtain ⟨h1, h2⟩ := h
  obtain ⟨hsp1, hsp2⟩ := h2 gid s hact
  constructor
  · intro u g' hg'
    rw [hu] at hg'
    by_cases c : u = s.player1_id ∨ (s.player2_id ≠ "AI" ∧ u = s.player2_id)
    · rw [if_pos c] at hg'; cases hg'
    · rw [if_neg c] at hg'
      obtain ⟨s', hs', hm'⟩ := h1 u g' hg'
      have hne : g' ≠ gid := by
        intro he
        subst he
        rw [hact] at hs'
        injection hs' with hs'
        subst hs'
        rcases hm' with hm' | ⟨hm', hAI⟩
        · exact c (Or.inl hm')
        · exact c (Or.inr ⟨hAI, hm'⟩)
      exact ⟨s', by rw [ha, if_neg hne]; exact hs', hm'⟩
  · intro gx sx hx
    rw [ha] at hx
    by_cases hg : gx = gid
    · rw [if_pos hg] at hx; cases hx
    · rw [if_neg hg] at hx
      obtain ⟨hx1, hx2⟩ := h2 gx sx hx
      constructor
      · have d : ¬(sx.player1_id = s.player1_id ∨
            (s.player2_id ≠ "AI" ∧ sx.player1_id = s.player2_id)) := by
          rintro (he | ⟨hAI, he⟩)
          · rw [he, hsp1] at hx1; injection hx1 with h'; exact hg h'.symm
          · rw [he, hsp2 hAI] at hx1; injection hx1 with h'; exact hg h'.symm
        rw [hu, if_neg d]
        exact hx1
      · intro hAI
        have hx2' := hx2 hAI
        have d : ¬(sx.player2_id = s.player1_id ∨
            (s.player2_id ≠ "AI" ∧ sx.player2_id = s.player2_id)) := by
          rintro (he | ⟨hAI2, he⟩)
          · rw [he, hsp1] at hx2'; injection hx2' with h'; exact hg h'.symm
          · rw [he, hsp2 hAI2] at hx2'; injection hx2' with h'; exact hg h'.symm
        rw [hu, if_neg d]
        exact hx2'

/-- `create_game` preserves the registry invariant whenever it fails or
generates a fresh id. -/
theorem registryInv_create (m : GameManager) (gt p1 p2 grp : String) (bid ts : Int)
    (h : RegistryInv m)
    (hfresh : m.active_games (GameManager.generate_game_id gt p1 grp ts) = none ∨
      ∃ e, m.create_game gt p1 p2 grp bid ts = .error e) :
    RegistryInv (createdState m gt p1 p2 grp bid ts) := by
  rcases hres : m.create_game gt p1 p2 grp bid ts with e | out
  · simpa [createdState, hres] using h
  · have hfr : m.active_games (GameManager.generate_game_id gt p1 grp ts) = none := by
      rcases hfresh with hh | ⟨e, he⟩
      · exact hh
      · rw [hres] at he; cases he
    obtain ⟨hp1, hp2⟩ := create_ok_inversion m gt p1 p2 grp bid ts out hres
    obtain ⟨hA, hUu, hG, hB⟩ := create_ok_spec m gt p1 p2 grp bid ts hp1 hp2
    obtain ⟨hu, hg, hb⟩ := h
    refine ⟨?_, ?_, ?_⟩
    · exact UserOk_create m.active_games _ m.user_games _ p1 p2
        (GameManager.generate_game_id gt p1 grp ts)
        (GameSession.init (GameManager.generate_game_id gt p1 grp ts) gt p1 p2 grp bid ts)
        hu hp1 hp2 hfr rfl rfl hA hUu
    · exact IndexOk_create m.active_games _ m.group_games _ _
        (GameManager.generate_game_id gt p1 grp ts)
        (GameSession.init (GameManager.generate_game_id gt p1 grp ts) gt p1 p2 grp bid ts)
        hg hfr hA hG
    · exact IndexOk_create m.active_games _ m.bot_games _ _
        (GameManager.generate_game_id gt p1 grp ts)
        (GameSession.init (GameManager.generate_game_id gt p1 grp ts) gt p1 p2 grp bid ts)
        hb hfr hA hB

/-- `remove_game` preserves the registry invariant. -/
theorem registryInv_remove (m : GameManager) (gid : String) (h : RegistryInv m) :
    RegistryInv (GameManager.remove_game m gid).2 := by
  rcases hact : m.active_games gid with _ | s
  · have hsame : (GameManager.remove_game m gid).2 = m := by
      simp [GameManager.remove_game, hact]
    rw [hsame]
    exact h
  · obtain ⟨hu, hg, hb⟩ := h
    obtain ⟨hsp1, hsp2⟩ := hu.2 gid s hact
    obtain ⟨lg, hlg, hgl⟩ := hg.2 gid s hact
    obtain ⟨lb, hlb, hbl⟩ := hb.2 gid s hact
    obtain ⟨-, hA, hUu, hG, hB⟩ := remove_spec m gid s lg lb hact hsp1 hsp2 hlg hgl hlb hbl
    refine ⟨?_, ?_, ?_⟩
    · exact UserOk_remove m.active_games _ m.user_games _ gid s ⟨hu.1, hu.2⟩ hact hA hUu
    · exact IndexOk_remove m.active_games _ m.group_games _ _ gid s lg hg hact hlg hA hG
    · exact IndexOk_remove m.active_games _ m.bot_games _ _ gid s lb hb hact hlb hA hB

/-- Every reachable registry satisfies the invariant. -/
theorem registryInv_of_reachable (m : GameManager) (h : Reachable m) : RegistryInv m := by
  induction h with
  | empty =>
    refine ⟨⟨?_, ?_⟩, ⟨?_, ?_⟩, ⟨?_, ?_⟩⟩ <;>
      (intro a b hab) <;> simp [emptyManager] at hab
  | create m gt p1 p2 grp bid ts hm hfresh ih =>
    exact registryInv_create m gt p1 p2 grp bid ts ih hfresh
  | remove m gid hm ih =>
    exact registryInv_remove m gid ih

/-- C1 (amended): for every registry reachable from the empty `GameManager`
by `create_game`/`remove_game` calls IN WHICH every successful create
generates a game id not currently active (the freshness proviso the
counterexample forces — `generate_game_id` is plain string concatenation
and CAN collide), the registry is orphan-free in both directions: every
user-index entry points to a game id present in the primary map, every
non-AI player of every live session is indexed to exactly that session's
id, and a successful `remove_game` purges the removed id from the user,
group and bot indices in the same call. -/
theorem c1_registry_consistency (m : GameManager) (h : Reachable m) :
    (∀ u gid, m.user_games u = some gid → (m.active_games gid).isSome = true) ∧
    (∀ gid s, m.active_games gid = some s →
      m.user_games s.player1_id = some gid ∧
      (s.player2_id ≠ "AI" → m.user_games s.player2_id = some gid)) ∧
    (∀ gid, (GameManager.remove_game m gid).1 = true →
      (∀ u, (GameManager.remove_game m gid).2.user_games u ≠ some gid) ∧
      (∀ grp l, (GameManager.remove_game m gid).2.group_games grp = some l → gid ∉ l) ∧
      (∀ b l, (GameManager.remove_game m gid).2.bot_games b = some l → gid ∉ l)) := by
  obtain ⟨hu, hg, hb⟩ := registryInv_of_reachable m h
  refine ⟨?_, hu.2, ?_⟩
  · intro u gid hug
    obtain ⟨s, hs, -⟩ := hu.1 u gid hug
    rw [hs]
    rfl
  · intro gid hrem
    have hact : ∃ s, m.active_games gid = some s := by
      rcases hx : m.active_games gid with _ | s
      · simp [GameManager.remove_game, hx] at hrem
      · exact ⟨s, rfl⟩
    obtain ⟨s, hs⟩ := hact
    obtain ⟨hsp1, hsp2⟩ := hu.2 gid s hs
    obtain ⟨lg, hlg, hgl⟩ := hg.2 gid s hs
    obtain ⟨lb, hlb, hbl⟩ := hb.2 gid s hs
    obtain ⟨-, hA, -, -, -⟩ := remove_spec m gid s lg lb hs hsp1 hsp2 hlg hgl hlb hbl
    have hgone : (GameManager.remove_game m gid).2.active_games gid = none := by
      rw [hA]
      simp
    obtain ⟨hu', hg', hb'⟩ := registryInv_remove m gid ⟨hu, hg, hb⟩
    refine ⟨?_, ?_, ?_⟩
    · intro u hcon
      obtain ⟨s', hs', -⟩ := hu'.1 u gid hcon
      rw [hgone] at hs'
      cases hs'
    · intro grp l hl hmem
      obtain ⟨s', hs', -⟩ := (hg'.1 grp l hl).2 gid hmem
      rw [hgone] at hs'
      cases hs'
    · intro b l hl hmem
      obtain ⟨s', hs', -⟩ := (hb'.1 b l hl).2 gid hmem
      rw [hgone] at hs'
      cases hs'

/-- Registry reached by one fresh `create_game` from empty, for the C1
witness. -/
def c1WitnessManager : GameManager :=
  createdState emptyManager "tictactoe" "u1" "u2" "grp" 5 100

theorem c1_registry_consistency_witness :
    (∀ u gid, c1WitnessManager.user_games u = some gid →
      (c1WitnessManager.active_games gid).isSome = true) ∧
    (∀ gid s, c1WitnessManager.active_games gid = some s →
      c1WitnessManager.user_games s.player1_id = some gid ∧
      (s.player2_id ≠ "AI" → c1WitnessManager.user_games s.player2_id = some gid)) ∧
    (∀ gid, (GameManager.remove_game c1WitnessManager gid).1 = true →
      (∀ u, (GameManager.remove_game c1WitnessManager gid).2.user_games u ≠ some gid) ∧
      (∀ grp l, (GameManager.remove_game c1WitnessManager gid).2.group_games grp = some l →
        gid ∉ l) ∧
      (∀ b l, (GameManager.remove_game c1WitnessManager gid).2.bot_games b = some l →
        gid ∉ l)) :=
  c1_registry_consistency c1WitnessManager
    (Reachable.create emptyManager "tictactoe" "u1" "u2" "grp" 5 100 Reachable.empty
      (Or.inl rfl))
